import Mathlib

/-!
Shallow embedding of the lead scoring pipeline of the lead_scout_model
repository, together with proofs about its specified behavior.

Conventions of the embedding:
- Python floats are modelled as rationals where the source only performs
  field arithmetic (ICP matcher, committee detection, config tables), and as
  real numbers where the source uses transcendental functions
  (exponential decay, sigmoid calibration).
- datetime values are modelled as rational numbers of seconds on an absolute
  time axis; datetime.now() becomes an explicit `now` parameter.
  The pair isoformat/fromisoformat of the standard library is a bijection on
  naive datetimes and is abstracted as carrying the instant itself.
- Python round(x, n) is modelled as rounding to the nearest multiple of
  10^(-n).  CPython uses round-half-to-even while `round` here is
  round-half-up; both are monotone and within 1/2 ulp of the argument, which
  is all the statements below depend on.
- Python dicts become association lists (user configurable tables) or match
  functions (class constant tables); dict.get(k, d) becomes `dget`.
-/

namespace LeadScout

/-- Lookup in a rational-valued association list with a default, mirroring
Python dict.get(key, default). -/
def dget (d : List (String × ℚ)) (k : String) (dflt : ℚ) : ℚ :=
  match d.find? (fun p => p.1 == k) with
  | some p => p.2
  | none => dflt

/-- Lookup in a string-valued association list, mirroring Python dict.get(key). -/
def sget (d : List (String × String)) (k : String) : Option String :=
  match d.find? (fun p => p.1 == k) with
  | some p => some p.2
  | none => none

/-- Python truthiness of an optional string: None and the empty string are falsy. -/
def truthyOptStr : Option String → Bool
  | none => false
  | some s => !(s == "")

/-- Python `a or b` on optional strings: yields b when a is falsy. -/
def pyOr (a b : Option String) : Option String :=
  if truthyOptStr a then a else b

/-- Python substring containment `needle in hay`. -/
def strIn (needle hay : String) : Bool :=
  decide (needle.toList <:+: hay.toList)

/-- Lower-casing of a single character.  The sources only lower-case ASCII
configuration strings, titles and company names, so str.lower is modelled
character-wise on the ASCII alphabet. -/
def lowerChar (c : Char) : Char :=
  if c = 'A' then 'a' else if c = 'B' then 'b' else if c = 'C' then 'c'
  else if c = 'D' then 'd' else if c = 'E' then 'e' else if c = 'F' then 'f'
  else if c = 'G' then 'g' else if c = 'H' then 'h' else if c = 'I' then 'i'
  else if c = 'J' then 'j' else if c = 'K' then 'k' else if c = 'L' then 'l'
  else if c = 'M' then 'm' else if c = 'N' then 'n' else if c = 'O' then 'o'
  else if c = 'P' then 'p' else if c = 'Q' then 'q' else if c = 'R' then 'r'
  else if c = 'S' then 's' else if c = 'T' then 't' else if c = 'U' then 'u'
  else if c = 'V' then 'v' else if c = 'W' then 'w' else if c = 'X' then 'x'
  else if c = 'Y' then 'y' else if c = 'Z' then 'z' else c

/-- Python str.lower. -/
def pyLower (s : String) : String := String.mk (s.toList.map lowerChar)

/-- Python str.replace with a single-character pattern and replacement, which
is the only form the sources use. -/
def replaceChar (a b : Char) (s : String) : String :=
  String.mk (s.toList.map (fun c => if c = a then b else c))

/-- Python round(x, 1) over the rationals. -/
def round1q (x : ℚ) : ℚ := ((round (x * 10) : ℤ) : ℚ) / 10

/-- Python round(x, 2) over the rationals. -/
def round2q (x : ℚ) : ℚ := ((round (x * 100) : ℤ) : ℚ) / 100

/-- Python round(x, 1) over the reals. -/
noncomputable def round1r (x : ℝ) : ℝ := ((round (x * 10) : ℤ) : ℝ) / 10

/-- Python round(x, 2) over the reals. -/
noncomputable def round2r (x : ℝ) : ℝ := ((round (x * 100) : ℤ) : ℝ) / 100

/-! ## src/signals/signal_event.py -/

/-- SignalType enum from src/signals/signal_event.py. -/
inductive SignalType
  | CONTENT_ENGAGEMENT
  | PROFILE_VISIT
  | TOPIC_INTERACTION
  | COMPETITOR_ENGAGEMENT
  | FUNDING_ROUND
  | ROLE_CHANGE
  | EVENT_ATTENDANCE
  | GROUP_JOIN
  | DEMO_REQUEST
  | PRICING_PAGE_VISIT
deriving DecidableEq

/-- String value of each SignalType member, as in the source enum. -/
def SignalType.value : SignalType → String
  | .CONTENT_ENGAGEMENT => "content_engagement"
  | .PROFILE_VISIT => "profile_visit"
  | .TOPIC_INTERACTION => "topic_interaction"
  | .COMPETITOR_ENGAGEMENT => "competitor_engagement"
  | .FUNDING_ROUND => "funding_round"
  | .ROLE_CHANGE => "role_change"
  | .EVENT_ATTENDANCE => "event_attendance"
  | .GROUP_JOIN => "group_join"
  | .DEMO_REQUEST => "demo_request"
  | .PRICING_PAGE_VISIT => "pricing_page_visit"

/-- Python SignalType(s): member lookup by value, None models the ValueError. -/
def SignalType.ofValue (s : String) : Option SignalType :=
  if s = "content_engagement" then some .CONTENT_ENGAGEMENT
  else if s = "profile_visit" then some .PROFILE_VISIT
  else if s = "topic_interaction" then some .TOPIC_INTERACTION
  else if s = "competitor_engagement" then some .COMPETITOR_ENGAGEMENT
  else if s = "funding_round" then some .FUNDING_ROUND
  else if s = "role_change" then some .ROLE_CHANGE
  else if s = "event_attendance" then some .EVENT_ATTENDANCE
  else if s = "group_join" then some .GROUP_JOIN
  else if s = "demo_request" then some .DEMO_REQUEST
  else if s = "pricing_page_visit" then some .PRICING_PAGE_VISIT
  else none

/-- SignalSource enum from src/signals/signal_event.py. -/
inductive SignalSource
  | LINKEDIN
  | CRUNCHBASE
  | COMPANY_WEBSITE
  | EVENT_PLATFORM
  | SLACK
  | MANUAL
deriving DecidableEq

/-- String value of each SignalSource member. -/
def SignalSource.value : SignalSource → String
  | .LINKEDIN => "linkedin"
  | .CRUNCHBASE => "crunchbase"
  | .COMPANY_WEBSITE => "company_website"
  | .EVENT_PLATFORM => "event_platform"
  | .SLACK => "slack"
  | .MANUAL => "manual"

/-- Python SignalSource(s): member lookup by value. -/
def SignalSource.ofValue (s : String) : Option SignalSource :=
  if s = "linkedin" then some .LINKEDIN
  else if s = "crunchbase" then some .CRUNCHBASE
  else if s = "company_website" then some .COMPANY_WEBSITE
  else if s = "event_platform" then some .EVENT_PLATFORM
  else if s = "slack" then some .SLACK
  else if s = "manual" then some .MANUAL
  else none

/-- SignalEvent dataclass.  The open payload dict is modelled as a
string-to-string association list (the scorer only reads string fields
event_type and round_type from it). -/
structure SignalEvent where
  type : SignalType
  user_id : String
  timestamp : ℚ
  source : SignalSource
  data : List (String × String)
  company_id : Option String
  strength : ℚ
deriving DecidableEq

/-- Constructor with the post-init validation of SignalEvent; the ValueError
is modelled as the error branch. -/
def mkSignalEvent (t : SignalType) (uid : String) (ts : ℚ) (src : SignalSource)
    (data : List (String × String)) (cid : Option String) (strength : ℚ) :
    Except String SignalEvent :=
  if ¬ (0 ≤ strength ∧ strength ≤ 1) then
    .error "Signal strength must be between 0.0 and 1.0"
  else if uid = "" then
    .error "user_id cannot be empty"
  else
    .ok ⟨t, uid, ts, src, data, cid, strength⟩

/-- Serialized form produced by SignalEvent.to_dict.  Keys that from_dict
reads via dict.get are Option-valued so that a missing key is expressible;
the company_id key stores None both for a missing key and a stored None,
exactly as Python dict.get collapses the two. -/
structure SignalDict where
  type : String
  user_id : String
  timestamp : ℚ
  source : String
  data : Option (List (String × String))
  company_id : Option String
  strength : Option ℚ
deriving DecidableEq

/-- SignalEvent.to_dict. -/
def SignalEvent.to_dict (e : SignalEvent) : SignalDict :=
  { type := e.type.value
    user_id := e.user_id
    timestamp := e.timestamp
    source := e.source.value
    data := some e.data
    company_id := e.company_id
    strength := some e.strength }

/-- SignalEvent.from_dict: enum lookups raise on unknown values and the class
constructor re-runs validation, both modelled in Except. -/
def SignalEvent.from_dict (d : SignalDict) : Except String SignalEvent :=
  match SignalType.ofValue d.type with
  | none => .error "invalid SignalType value"
  | some t =>
    match SignalSource.ofValue d.source with
    | none => .error "invalid SignalSource value"
    | some src =>
      mkSignalEvent t d.user_id d.timestamp src (d.data.getD []) d.company_id
        (d.strength.getD (1/2))

/-- SignalEvent.age_hours with an explicit reference time. -/
def SignalEvent.age_hours (e : SignalEvent) (ref : ℚ) : ℚ :=
  (ref - e.timestamp) / 3600

/-- SignalEvent.decay_weight: exp(-0.693 * age / half_life_hours).  Note the
source performs no clamping of negative ages here. -/
noncomputable def SignalEvent.decay_weight (e : SignalEvent) (ref : ℚ)
    (half_life_hours : ℚ) : ℝ :=
  Real.exp (-0.693 * ((e.age_hours ref : ℚ) : ℝ) / ((half_life_hours : ℚ) : ℝ))

/-! ## src/enrichment/data_classes.py -/

/-- SeniorityLevel enum. -/
inductive SeniorityLevel
  | C_LEVEL
  | VP
  | DIRECTOR
  | MANAGER
  | INDIVIDUAL_CONTRIBUTOR
  | UNKNOWN
deriving DecidableEq

/-- Industry enum. -/
inductive Industry
  | SAAS
  | FINTECH
  | HEALTHTECH
  | ECOMMERCE
  | MARTECH
  | DEVTOOLS
  | SECURITY
  | AI_ML
  | ENTERPRISE
  | OTHER
deriving DecidableEq

/-- String value of each Industry member. -/
def Industry.value : Industry → String
  | .SAAS => "saas"
  | .FINTECH => "fintech"
  | .HEALTHTECH => "healthtech"
  | .ECOMMERCE => "ecommerce"
  | .MARTECH => "martech"
  | .DEVTOOLS => "devtools"
  | .SECURITY => "security"
  | .AI_ML => "ai_ml"
  | .ENTERPRISE => "enterprise"
  | .OTHER => "other"

/-- EnrichedCompany dataclass. -/
structure EnrichedCompany where
  company_id : String
  name : String
  size : ℤ
  industry : Industry
  tech_stack : List String
  revenue_estimate : Option ℚ
  funding_stage : Option String
  linkedin_url : Option String
  website : Option String
  headquarters : Option String
deriving DecidableEq

/-- EnrichedContact dataclass. -/
structure EnrichedContact where
  user_id : String
  name : String
  email : Option String
  phone : Option String
  title : Option String
  seniority_level : SeniorityLevel
  linkedin_url : Option String
  company_id : Option String
deriving DecidableEq

/-- SocialGraph dataclass. -/
structure SocialGraph where
  user_id : String
  mutual_connections : ℤ
  mutual_connection_names : List String
  shared_groups : List String
  second_degree_count : ℤ
deriving DecidableEq

/-- ICPConfig dataclass; the weight dict is an association list so that
missing keys (which calculate_icp_score fills via dict.get defaults) are
representable. -/
structure ICPConfig where
  size_range : ℤ × ℤ
  target_industries : List String
  target_tech_stack : List String
  min_funding_stage : Option String
  decision_maker_levels : List String
  weights : List (String × ℚ)
deriving DecidableEq

/-- Default ICPConfig values. -/
def defaultICPConfig : ICPConfig :=
  { size_range := (50, 500)
    target_industries := ["saas", "fintech"]
    target_tech_stack := []
    min_funding_stage := none
    decision_maker_levels := ["c_level", "vp", "director"]
    weights := [("size", 0.20), ("industry", 0.25), ("tech_stack", 0.15),
                ("funding", 0.15), ("authority", 0.25)] }

/-- ICPConfig.validate: weights sum approximately to 1.0. -/
def ICPConfig.validate (c : ICPConfig) : Bool :=
  decide (0.99 ≤ (c.weights.map (·.2)).sum ∧ (c.weights.map (·.2)).sum ≤ 1.01)

/-- EnrichedLead dataclass (icp_breakdown kept abstract as the pair list the
matcher would attach; it is never read by the embedded operations). -/
structure EnrichedLead where
  user_id : String
  contact : Option EnrichedContact
  company : Option EnrichedCompany
  social_graph : Option SocialGraph
  icp_score : Option ℚ
  icp_breakdown : List (String × ℚ)
deriving DecidableEq

/-! ## src/enrichment/icp_matcher.py -/

namespace ICPMatcher

/-- AUTHORITY_SCORES class constant: authority score per seniority level. -/
def AUTHORITY_SCORES : SeniorityLevel → ℚ
  | .C_LEVEL => 1.0
  | .VP => 0.9
  | .DIRECTOR => 0.8
  | .MANAGER => 0.6
  | .INDIVIDUAL_CONTRIBUTOR => 0.3
  | .UNKNOWN => 0.2

/-- FUNDING_SCORES class constant, as a lookup returning none for unknown keys. -/
def FUNDING_SCORES (k : String) : Option ℚ :=
  if k = "pre_seed" then some 0.3
  else if k = "seed" then some 0.4
  else if k = "series_a" then some 0.6
  else if k = "series_b" then some 0.8
  else if k = "series_c" then some 0.9
  else if k = "series_d" then some 0.95
  else if k = "ipo" then some 1.0
  else if k = "public" then some 1.0
  else none

/-- ICPMatcher.score_company_size. -/
def score_company_size (config : ICPConfig) (size : ℤ) (size_range : Option (ℤ × ℤ)) : ℚ :=
  if size ≤ 0 then 0
  else
    let mm := size_range.getD config.size_range
    let min_size := mm.1
    let max_size := mm.2
    if min_size ≤ size ∧ size ≤ max_size then 1
    else if size < min_size then max 0 ((size : ℚ) / (min_size : ℚ))
    else max 0 ((max_size : ℚ) / (size : ℚ))

/-- ICPMatcher.score_industry. -/
def score_industry (config : ICPConfig) (industry : Industry)
    (target_industries : Option (List String)) : ℚ :=
  let targets := target_industries.getD config.target_industries
  let industry_value := industry.value
  if industry_value ∈ targets ∨ pyLower industry_value ∈ targets.map pyLower then 1
  else 0

/-- ICPMatcher.score_tech_stack. -/
def score_tech_stack (config : ICPConfig) (tech_stack : List String)
    (target_tech_stack : Option (List String)) : ℚ :=
  let targets := target_tech_stack.getD config.target_tech_stack
  if targets = [] then 0.5
  else if tech_stack = [] then 0
  else
    let tech_lower := (tech_stack.map pyLower).toFinset
    let targets_lower := (targets.map pyLower).toFinset
    let overlap := (tech_lower ∩ targets_lower).card
    min 1 ((overlap : ℚ) / (targets_lower.card : ℚ))

/-- Normalization applied to funding stage strings: lower-case, then replace
hyphens and spaces by underscores. -/
def normalizeStage (s : String) : String :=
  replaceChar ' ' '_' (replaceChar '-' '_' (pyLower s))

/-- ICPMatcher.score_funding. -/
def score_funding (config : ICPConfig) (funding_stage : Option String)
    (min_funding_stage : Option String) : ℚ :=
  if ¬ truthyOptStr funding_stage then 0.3
  else
    let stage_key := normalizeStage (funding_stage.getD "")
    let stage_score := (FUNDING_SCORES stage_key).getD 0.4
    let min_stage := pyOr min_funding_stage config.min_funding_stage
    if truthyOptStr min_stage then
      let min_key := normalizeStage (min_stage.getD "")
      let min_score := (FUNDING_SCORES min_key).getD 0.0
      if stage_score < min_score then 0 else stage_score
    else stage_score

/-- ICPMatcher._detect_seniority: keyword rules over the lowered title. -/
def detect_seniority (title : String) : SeniorityLevel :=
  let title_lower := pyLower title
  if strIn "director" title_lower then .DIRECTOR
  else if ["ceo", "cto", "cfo", "coo", "chief", "founder", "co-founder"].any
      (fun t => strIn t title_lower) then .C_LEVEL
  else if ["vp", "vice president"].any (fun t => strIn t title_lower) then .VP
  else if ["manager", "lead", "head"].any (fun t => strIn t title_lower) then .MANAGER
  else .INDIVIDUAL_CONTRIBUTOR

/-- ICPMatcher.score_authority: (authority_level, authority_score).  The
seniority argument wins when present (enum members are always truthy in
Python); a falsy title means the UNKNOWN default. -/
def score_authority (title : Option String) (seniority_level : Option SeniorityLevel) :
    String × ℚ :=
  let level :=
    match seniority_level with
    | some l => l
    | none =>
      if truthyOptStr title then detect_seniority (title.getD "") else .UNKNOWN
  let score := AUTHORITY_SCORES level
  let is_decision_maker := level = .C_LEVEL ∨ level = .VP ∨ level = .DIRECTOR
  (if is_decision_maker then "decision_maker" else "influencer", score)

/-- Breakdown map returned by calculate_icp_score. -/
structure ICPBreakdown where
  size : ℚ
  industry : ℚ
  tech_stack : ℚ
  funding : ℚ
  authority : ℚ
deriving DecidableEq

/-- Result record of calculate_icp_score. -/
structure ICPResult where
  icp_score : ℚ
  breakdown : ICPBreakdown
  authority_level : String
deriving DecidableEq

/-- Effective company argument of calculate_icp_score: lead.company or the
explicit company argument. -/
def effective_company (lead : Option EnrichedLead)
    (company0 : Option EnrichedCompany) : Option EnrichedCompany :=
  match lead with
  | some l => match l.company with
    | some c => some c
    | none => company0
  | none => company0

/-- Effective contact argument of calculate_icp_score: lead.contact or the
explicit contact argument. -/
def effective_contact (lead : Option EnrichedLead)
    (contact0 : Option EnrichedContact) : Option EnrichedContact :=
  match lead with
  | some l => match l.contact with
    | some c => some c
    | none => contact0
  | none => contact0

/-- size_score local of calculate_icp_score (0.0 default without a company). -/
def size_dim (config : ICPConfig) (company : Option EnrichedCompany) : ℚ :=
  match company with
  | some c => score_company_size config c.size none
  | none => 0.0

/-- industry_score local of calculate_icp_score. -/
def industry_dim (config : ICPConfig) (company : Option EnrichedCompany) : ℚ :=
  match company with
  | some c => score_industry config c.industry none
  | none => 0.0

/-- tech_score local of calculate_icp_score (0.5 default without a company). -/
def tech_dim (config : ICPConfig) (company : Option EnrichedCompany) : ℚ :=
  match company with
  | some c => score_tech_stack config c.tech_stack none
  | none => 0.5

/-- funding_score local of calculate_icp_score (0.3 default without a company). -/
def funding_dim (config : ICPConfig) (company : Option EnrichedCompany) : ℚ :=
  match company with
  | some c => score_funding config c.funding_stage none
  | none => 0.3

/-- authority local pair of calculate_icp_score (("unknown", 0.2) default
without a contact). -/
def authority_dim (contact : Option EnrichedContact) : String × ℚ :=
  match contact with
  | some ct => score_authority ct.title (some ct.seniority_level)
  | none => ("unknown", 0.2)

/-- ICPMatcher.calculate_icp_score. -/
def calculate_icp_score (config : ICPConfig) (lead : Option EnrichedLead)
    (company0 : Option EnrichedCompany) (contact0 : Option EnrichedContact) : ICPResult :=
  let company := effective_company lead company0
  let contact := effective_contact lead contact0
  let size_score := size_dim config company
  let industry_score := industry_dim config company
  let tech_score := tech_dim config company
  let funding_score := funding_dim config company
  let authority := authority_dim contact
  let weights := config.weights
  let weighted_score :=
    size_score * dget weights "size" 0.2 +
    industry_score * dget weights "industry" 0.25 +
    tech_score * dget weights "tech_stack" 0.15 +
    funding_score * dget weights "funding" 0.15 +
    authority.2 * dget weights "authority" 0.25
  let icp_score := round1q (weighted_score * 100)
  { icp_score := icp_score
    breakdown :=
      { size := round2q size_score
        industry := round2q industry_score
        tech_stack := round2q tech_score
        funding := round2q funding_score
        authority := round2q authority.2 }
    authority_level := authority.1 }

end ICPMatcher

/-! ## src/scoring/data_classes.py -/

/-- IntentLabel enum. -/
inductive IntentLabel
  | HIGH
  | MEDIUM
  | LOW
deriving DecidableEq

/-- String value of each IntentLabel member. -/
def IntentLabel.value : IntentLabel → String
  | .HIGH => "high"
  | .MEDIUM => "medium"
  | .LOW => "low"

/-- ScoringConfig dataclass. -/
structure ScoringConfig where
  signal_weights : List (String × ℚ)
  action_modifiers : List (String × ℚ)
  decay_half_life_hours : ℚ
  committee_multiplier : ℚ
  high_threshold : ℚ
  medium_threshold : ℚ
deriving DecidableEq

/-- Default ScoringConfig values. -/
def defaultScoringConfig : ScoringConfig :=
  { signal_weights := [("content_engagement", 10.0), ("profile_visit", 15.0),
                       ("funding_round", 40.0), ("role_change", 25.0),
                       ("event_attendance", 20.0), ("demo_request", 70.0),
                       ("pricing_page_visit", 35.0)]
    action_modifiers := [("like", 1.0), ("comment", 2.0), ("share", 3.0), ("visit", 1.0)]
    decay_half_life_hours := 72.0
    committee_multiplier := 1.5
    high_threshold := 70.0
    medium_threshold := 30.0 }

/-- Per-signal entry of the audit breakdown assembled by calculate_intent_score. -/
structure SignalBreakdownEntry where
  type : String
  weight : ℝ
  decay : ℝ
  timestamp : ℚ

/-- Committee details of the breakdown. -/
structure CommitteeDetails where
  detected : Bool
  multiplier : ℚ
  logit_boost : ℝ
  reason : Option String

/-- IntentScore dataclass. -/
structure IntentScore where
  score : ℝ
  label : IntentLabel
  signals_score : ℝ
  recency_factor : ℝ
  committee_factor : ℚ
  breakdown_signals : List SignalBreakdownEntry
  breakdown_committee : CommitteeDetails
  breakdown_logits : ℝ

/-! ## src/scoring/intent_scorer.py -/

namespace IntentScorer

/-- IntentScorer._sigmoid: 1 / (1 + exp(-x)) with the argument clamped to
[-50, 50]. -/
noncomputable def sigmoid (x : ℝ) : ℝ :=
  let c := max (-50) (min 50 x)
  1.0 / (1.0 + Real.exp (-c))

/-- IntentScorer._calculate_decay: 0.5 ^ (age_hours / half_life), with a
negative age (future timestamp) clamped to 0.  The timestamp and the
current instant are rational seconds; the exponentiation is a real power. -/
noncomputable def calculate_decay (config : ScoringConfig) (now ts : ℚ) : ℝ :=
  let age_hours_raw : ℚ := (now - ts) / 3600
  let age_hours : ℚ := if age_hours_raw < 0 then 0 else age_hours_raw
  let half_life := config.decay_half_life_hours
  (0.5 : ℝ) ^ (((age_hours : ℚ) : ℝ) / ((half_life : ℚ) : ℝ))

/-- IntentScorer.detect_buying_committee: count distinct other users with a
company signal newer than 30 days before now, and map the count to the
multiplier. -/
def detect_buying_committee (now : ℚ) (current_user_id : String)
    (company_signals : List SignalEvent) : ℚ :=
  if company_signals = [] then 1.0
  else
    let cutoff : ℚ := now - 30 * 24 * 3600
    let active_users : Finset String :=
      ((company_signals.filter
        (fun s => decide (cutoff < s.timestamp ∧ s.user_id ≠ "" ∧
                  s.user_id ≠ current_user_id))).map
        (·.user_id)).toFinset
    if 1 ≤ active_users.card then
      if 2 ≤ active_users.card then 1.5 else 1.2
    else 1.0

/-- Action-modifier resolution inside the scoring loop: the first configured
key that is a substring of the lowered action type wins; otherwise 1.0. -/
def resolve_modifier (mods : List (String × ℚ)) (action : String) : ℚ :=
  match mods.find? (fun p => strIn p.1 (pyLower action)) with
  | some p => p.2
  | none => 1.0

/-- Rational part of one signal contribution in calculate_intent_score:
base weight (config table, 5.0 default) times action modifier times
strength. -/
def signal_weight_q (config : ScoringConfig) (signal : SignalEvent) : ℚ :=
  let base_weight := dget config.signal_weights signal.type.value 5.0
  let modifier : ℚ :=
    if signal.data = [] then 1.0
    else
      let action_type := pyOr (sget signal.data "event_type") (sget signal.data "round_type")
      if truthyOptStr action_type then
        resolve_modifier config.action_modifiers (action_type.getD "")
      else 1.0
  base_weight * modifier * signal.strength

/-- Full weighted contribution of one signal: the rational part times the
recency decay of its timestamp. -/
noncomputable def signal_weight (config : ScoringConfig) (now : ℚ) (signal : SignalEvent) : ℝ :=
  ((signal_weight_q config signal : ℚ) : ℝ) * calculate_decay config now signal.timestamp

/-- Sum of all weighted signal contributions (total_raw_weight in the source). -/
noncomputable def total_raw_weight (config : ScoringConfig) (now : ℚ)
    (signals : List SignalEvent) : ℝ :=
  (signals.map (signal_weight config now)).sum

/-- Gate of the committee step: a lead with a company and a truthy (non-empty)
company signal list. -/
def committee_gate (lead : Option EnrichedLead)
    (company_signals : Option (List SignalEvent)) : Bool :=
  match lead, company_signals with
  | some l, some cs => l.company.isSome && !(cs == [])
  | _, _ => false

/-- Committee factor actually used by calculate_intent_score: 1.0 unless the
gate holds, in which case detect_buying_committee decides. -/
def effective_committee_factor (now : ℚ) (lead : Option EnrichedLead)
    (company_signals : Option (List SignalEvent)) : ℚ :=
  match lead, company_signals with
  | some l, some cs =>
    if l.company.isSome && !(cs == []) then detect_buying_committee now l.user_id cs
    else 1.0
  | _, _ => 1.0

/-- Logit boost added for a detected committee: 1.5 for a factor of at least
1.5, else 0.8; no boost when the factor is not above 1.0 or the gate fails. -/
def committee_boost (now : ℚ) (lead : Option EnrichedLead)
    (company_signals : Option (List SignalEvent)) : ℚ :=
  let factor := effective_committee_factor now lead company_signals
  if committee_gate lead company_signals ∧ 1.0 < factor then
    if 1.5 ≤ factor then 1.5 else 0.8
  else 0.0

/-- IntentScorer._determine_label. -/
noncomputable def determine_label (config : ScoringConfig) (score : ℝ) : IntentLabel :=
  if ((config.high_threshold : ℚ) : ℝ) ≤ score then .HIGH
  else if ((config.medium_threshold : ℚ) : ℝ) ≤ score then .MEDIUM
  else .LOW

/-- IntentScorer.calculate_intent_score.  The loop accumulating logits is
rendered as the list sum of the per-signal contributions times the scale
factor 0.1, starting from the bias -3.0; the committee boost is added after
the loop exactly as in the source. -/
noncomputable def calculate_intent_score (config : ScoringConfig) (now : ℚ)
    (signals : List SignalEvent) (lead : Option EnrichedLead)
    (company_signals : Option (List SignalEvent)) : IntentScore :=
  let logits : ℝ := -3.0 +
    (signals.map (fun s => signal_weight config now s * 0.1)).sum +
    ((committee_boost now lead company_signals : ℚ) : ℝ)
  let committee_factor := effective_committee_factor now lead company_signals
  let probability := sigmoid logits
  let final_score := probability * 100.0
  let label := determine_label config final_score
  { score := round1r final_score
    label := label
    signals_score := round1r (total_raw_weight config now signals)
    recency_factor := match signals with
      | [] => 0.0
      | s :: _ => calculate_decay config now s.timestamp
    committee_factor := committee_factor
    breakdown_signals := signals.map (fun s =>
      { type := s.type.value
        weight := round2r (signal_weight config now s)
        decay := round2r (calculate_decay config now s.timestamp)
        timestamp := s.timestamp })
    breakdown_committee :=
      if committee_gate lead company_signals ∧ 1.0 < committee_factor then
        { detected := true
          multiplier := committee_factor
          logit_boost := ((committee_boost now lead company_signals : ℚ) : ℝ)
          reason := some "Multiple engaged contacts" }
      else
        { detected := false, multiplier := 1.0, logit_boost := 0.0, reason := none }
    breakdown_logits := round2r logits }

end IntentScorer

/-! ## src/engagement/data_classes.py -/

/-- EngagementPriority enum. -/
inductive EngagementPriority
  | HIGH
  | MEDIUM
  | LOW
deriving DecidableEq

/-- EngagementConfig dataclass; score thresholds are reals because they are
compared with the real-valued intent score. -/
structure EngagementConfig where
  min_intent_score : ℝ
  min_icp_score : ℝ
  excluded_domains : List String
  competitors : List String
  max_daily_messages : ℤ

/-- Default EngagementConfig values. -/
noncomputable def defaultEngagementConfig : EngagementConfig :=
  { min_intent_score := 70.0
    min_icp_score := 80.0
    excluded_domains := []
    competitors := []
    max_daily_messages := 50 }

/-- EngagementDecision dataclass. -/
structure EngagementDecision where
  should_engage : Bool
  priority : EngagementPriority
  reason : String
  decision_time : String

/-! ## src/engagement/intent_filter.py -/

namespace HighIntentFilter

/-- HighIntentFilter._check_exclusions.  The source returns early when the
lead has no company or the company website is falsy (None or empty), so the
competitor check is only reached for leads with a truthy website. -/
def check_exclusions (config : EngagementConfig) (lead : EnrichedLead) : Option String :=
  match lead.company with
  | none => none
  | some c =>
    if ¬ truthyOptStr c.website then none
    else
      let company_name := pyLower c.name
      match config.competitors.find? (fun comp => strIn (pyLower comp) company_name) with
      | some _ => some "Competitor detected"
      | none =>
        if truthyOptStr c.website then
          let domain := pyLower (c.website.getD "")
          match config.excluded_domains.find? (fun ex => strIn (pyLower ex) domain) with
          | some _ => some "Excluded domain"
          | none => none
        else none

/-- HighIntentFilter.evaluate_lead.  datetime.now().isoformat() is the
explicit decision_time argument; the float formatting used inside the two
f-string reasons is the abstract formatter fmt. -/
noncomputable def evaluate_lead (config : EngagementConfig) (fmt : ℝ → String)
    (decision_time : String) (lead : EnrichedLead) (intent_score : IntentScore)
    (icp_score_val : ℝ) : EngagementDecision :=
  match check_exclusions config lead with
  | some r =>
    { should_engage := false
      priority := .LOW
      reason := "Exclusion: " ++ r
      decision_time := decision_time }
  | none =>
    let intent_pass := config.min_intent_score ≤ intent_score.score
    let icp_pass := config.min_icp_score ≤ icp_score_val
    if intent_pass ∧ icp_pass then
      { should_engage := true
        priority := .HIGH
        reason := "High Intent + High ICP Match"
        decision_time := decision_time }
    else if ¬ icp_pass then
      { should_engage := false
        priority := .LOW
        reason := "ICP Score " ++ fmt icp_score_val ++ " < " ++ fmt config.min_icp_score
        decision_time := decision_time }
    else
      { should_engage := false
        priority := .MEDIUM
        reason := "Intent Score " ++ fmt intent_score.score ++ " < " ++
          fmt config.min_intent_score
        decision_time := decision_time }

end HighIntentFilter

/-! ## src/pipeline/config.py -/

/-- SystemConfig dataclass. -/
structure SystemConfig where
  high_intent_threshold : ℝ
  medium_intent_threshold : ℝ
  icp_engage_threshold : ℝ
  semantic_fit_threshold : ℝ
  min_intent_for_engagement : ℝ
  decay_half_life_hours : ℝ

/-- Default SystemConfig values. -/
noncomputable def defaultSystemConfig : SystemConfig :=
  { high_intent_threshold := 70.0
    medium_intent_threshold := 30.0
    icp_engage_threshold := 80.0
    semantic_fit_threshold := 80.0
    min_intent_for_engagement := 30.0
    decay_half_life_hours := 168.0 }

/-! ## src/pipeline/engine.py -/

/-- Secondary neural classifier collaborator: predict(tokens) either returns
a probability or raises (the error branch). -/
structure NeuralModel where
  predict : List SignalEvent → Except String ℝ

/-- Value type of the decision dict assembled by process_lead. -/
inductive PyVal
  | bool (b : Bool)
  | str (s : String)
deriving DecidableEq

/-- Result record of PipelineEngine.process_lead.  The decision component is
kept as the literal key-value list the source builds, so that the set of
keys it carries is expressible. -/
structure PipelineResult where
  icp_score : ℚ
  icp_breakdown : ICPMatcher.ICPBreakdown
  icp_authority : String
  semantic_score : ℝ
  intent_score : ℝ
  intent_label : String
  intent_signals : ℕ
  neural_prob : ℝ
  attention_weights : List ℝ
  decision : List (String × PyVal)
  draft : Option String

/-- PipelineEngine.process_lead.  Enrichment, semantic fit, attention
weighting and message drafting are collaborators per the spec: the enriched
lead, the semantic fit value in [0,1], the attention weight map and the
draft generator are parameters; the ICP scorer and the rule-based intent
scorer are the embedded functions above.  Neural inference failure or an
absent model leaves neural_prob at its initial 0.0. -/
noncomputable def process_lead (config : SystemConfig) (icp_config : ICPConfig)
    (scoring_config : ScoringConfig) (model : Option NeuralModel) (now : ℚ)
    (lead : EnrichedLead) (semantic_fit01 : ℝ) (attention_weights : List ℝ)
    (draft_gen : EnrichedLead → List SignalEvent → String)
    (signals : List SignalEvent) : PipelineResult :=
  let icp_result := ICPMatcher.calculate_icp_score icp_config (some lead) none none
  let icp_score := icp_result.icp_score
  let semantic_fit := semantic_fit01 * 100
  let intent_result := IntentScorer.calculate_intent_score scoring_config now signals
    (some lead) none
  let neural_prob : ℝ :=
    match model with
    | none => 0.0
    | some m =>
      match m.predict signals with
      | .ok p => p
      | .error _ => 0.0
  let is_intent_qualified : Bool := decide (config.min_intent_for_engagement < intent_result.score)
  let is_fit_qualified : Bool :=
    decide (config.icp_engage_threshold ≤ ((icp_score : ℚ) : ℝ) ∨
            config.semantic_fit_threshold ≤ semantic_fit)
  let should_engage := is_intent_qualified && is_fit_qualified
  let draft := if should_engage then some (draft_gen lead signals) else none
  { icp_score := icp_score
    icp_breakdown := icp_result.breakdown
    icp_authority := icp_result.authority_level
    semantic_score := semantic_fit
    intent_score := intent_result.score
    intent_label := intent_result.label.value
    intent_signals := signals.length
    neural_prob := neural_prob
    attention_weights := attention_weights
    decision := [("should_engage", PyVal.bool should_engage),
                 ("reason", PyVal.str (if should_engage then "Qualified" else "Low Intent/Fit"))]
    draft := draft }

/-! ## General helper lemmas -/

lemma round_le_round_of_le {α : Type} [LinearOrderedField α] [FloorRing α] {x y : α}
    (h : x ≤ y) : round x ≤ round y := by
  rw [round_eq, round_eq]
  exact Int.floor_le_floor (by linarith)

lemma round1r_mono {x y : ℝ} (h : x ≤ y) : round1r x ≤ round1r y := by
  unfold round1r
  have h10 : round (x * 10) ≤ round (y * 10) := round_le_round_of_le (by linarith)
  have hc : ((round (x * 10) : ℤ) : ℝ) ≤ ((round (y * 10) : ℤ) : ℝ) := by exact_mod_cast h10
  linarith

lemma round1r_nonneg {x : ℝ} (h : 0 ≤ x) : 0 ≤ round1r x := by
  have h0 : round1r 0 ≤ round1r x := round1r_mono h
  have : round1r 0 = 0 := by unfold round1r; norm_num
  linarith

lemma round1r_le_100 {x : ℝ} (h : x ≤ 100) : round1r x ≤ 100 := by
  have h0 : round1r x ≤ round1r 100 := round1r_mono h
  have : round1r 100 = 100 := by
    unfold round1r
    rw [show ((100 : ℝ) * 10) = ((1000 : ℤ) : ℝ) by norm_num, round_intCast]
    norm_num
  linarith

lemma round1q_mono {x y : ℚ} (h : x ≤ y) : round1q x ≤ round1q y := by
  unfold round1q
  have h10 : round (x * 10) ≤ round (y * 10) := round_le_round_of_le (by linarith)
  have hc : ((round (x * 10) : ℤ) : ℚ) ≤ ((round (y * 10) : ℤ) : ℚ) := by exact_mod_cast h10
  linarith

lemma round1q_nonneg {x : ℚ} (h : 0 ≤ x) : 0 ≤ round1q x := by
  have h0 : round1q 0 ≤ round1q x := round1q_mono h
  have : round1q 0 = 0 := by unfold round1q; norm_num
  linarith

lemma round1q_le_100 {x : ℚ} (h : x ≤ 100) : round1q x ≤ 100 := by
  have h0 : round1q x ≤ round1q 100 := round1q_mono h
  have : round1q 100 = 100 := by
    unfold round1q
    rw [show ((100 : ℚ) * 10) = ((1000 : ℤ) : ℚ) by norm_num, round_intCast]
    norm_num
  linarith

lemma round2q_bounds {x : ℚ} (h0 : 0 ≤ x) (h1 : x ≤ 1) :
    0 ≤ round2q x ∧ round2q x ≤ 1 := by
  unfold round2q
  have hl : round ((0 : ℚ) * 100) ≤ round (x * 100) := round_le_round_of_le (by linarith)
  have hr : round (x * 100) ≤ round ((1 : ℚ) * 100) := round_le_round_of_le (by linarith)
  rw [show ((0 : ℚ) * 100) = ((0 : ℤ) : ℚ) by norm_num, round_intCast] at hl
  rw [show ((1 : ℚ) * 100) = ((100 : ℤ) : ℚ) by norm_num, round_intCast] at hr
  constructor
  · have : ((0 : ℤ) : ℚ) ≤ ((round (x * 100) : ℤ) : ℚ) := by exact_mod_cast hl
    simp only [Int.cast_zero] at this
    linarith
  · have : ((round (x * 100) : ℤ) : ℚ) ≤ ((100 : ℤ) : ℚ) := by exact_mod_cast hr
    push_cast at this
    linarith

/-- Numeric bracket for exp(0.693), used to separate the two decay formulas. -/
lemma exp_693_bounds : (1.9997 : ℝ) < Real.exp 0.693 ∧ Real.exp 0.693 < 2 := by
  constructor
  · have h1 : Real.exp (Real.log 2) * Real.exp (0.693 - Real.log 2) =
        Real.exp (Real.log 2 + (0.693 - Real.log 2)) := (Real.exp_add _ _).symm
    have h1' : Real.log 2 + (0.693 - Real.log 2) = 0.693 := by ring
    have h2 : Real.exp (Real.log 2) = 2 := Real.exp_log (by norm_num)
    have h3 := Real.add_one_le_exp (0.693 - Real.log 2)
    have h4 := Real.log_two_lt_d9
    rw [h1', h2] at h1
    nlinarith [Real.exp_pos (0.693 - Real.log 2)]
  · have h5 := Real.log_two_gt_d9
    have h6 : (0.693 : ℝ) < Real.log 2 := by linarith
    calc Real.exp 0.693 < Real.exp (Real.log 2) := Real.exp_lt_exp.mpr h6
      _ = 2 := Real.exp_log (by norm_num)

/-- Numeric bracket for exp(-0.693): strictly above one half, but close to it. -/
lemma exp_neg693_bounds : (1/2 : ℝ) < Real.exp (-0.693) ∧ Real.exp (-0.693) < 0.5001 := by
  rw [Real.exp_neg]
  have hE := Real.exp_pos (0.693 : ℝ)
  have hid : Real.exp 0.693 * (Real.exp 0.693)⁻¹ = 1 := mul_inv_cancel₀ (ne_of_gt hE)
  have hinv := inv_pos.mpr hE
  constructor
  · nlinarith [exp_693_bounds.2]
  · nlinarith [exp_693_bounds.1]

/-! ## C1: the two decay implementations -/

/-- Unfolded decay value of a SignalEvent at a given age expressed through
its timestamp and the reference instant. -/
lemma decay_weight_eq (e : SignalEvent) (ref h : ℚ) :
    e.decay_weight ref h =
      Real.exp (-0.693 * (((ref - e.timestamp) / 3600 : ℚ) : ℝ) / ((h : ℚ) : ℝ)) := rfl

/-- Clamped decay of the intent scorer at a non-future timestamp. -/
lemma calculate_decay_of_le (config : ScoringConfig) (now ts : ℚ) (hts : ts ≤ now) :
    IntentScorer.calculate_decay config now ts =
      (0.5 : ℝ) ^ (((((now - ts) / 3600 : ℚ)) : ℝ) /
        ((config.decay_half_life_hours : ℚ) : ℝ)) := by
  unfold IntentScorer.calculate_decay
  have hage : ¬ ((now - ts) / 3600 < (0 : ℚ)) := by
    push_neg
    have : (0 : ℚ) ≤ now - ts := by linarith
    positivity
  simp only [hage, if_false, ite_false]

/-- Clamped decay of the intent scorer at a future timestamp: the age is
clamped to 0, so the factor is exactly 1. -/
lemma calculate_decay_of_future (config : ScoringConfig) (now ts : ℚ) (hts : now < ts) :
    IntentScorer.calculate_decay config now ts = 1 := by
  unfold IntentScorer.calculate_decay
  have hage : (now - ts) / 3600 < (0 : ℚ) := by
    apply div_neg_of_neg_of_pos (by linarith) (by norm_num)
  simp only [hage, if_true, ite_true]
  rw [show (((0 : ℚ) : ℝ) / ((config.decay_half_life_hours : ℚ) : ℝ)) = (0 : ℝ) by
    norm_num]
  exact Real.rpow_zero 0.5

/-- The clamped decay factor never exceeds 1 for a positive half-life. -/
lemma calculate_decay_le_one (config : ScoringConfig) (now ts : ℚ)
    (hh : 0 < config.decay_half_life_hours) :
    IntentScorer.calculate_decay config now ts ≤ 1 := by
  unfold IntentScorer.calculate_decay
  apply Real.rpow_le_one (by norm_num) (by norm_num)
  have hnum : (0 : ℚ) ≤ (if (now - ts) / 3600 < 0 then 0 else (now - ts) / 3600) := by
    split
    · exact le_refl 0
    · rename_i hc
      push_neg at hc
      exact hc
  have hden : (0 : ℝ) < ((config.decay_half_life_hours : ℚ) : ℝ) := by exact_mod_cast hh
  apply div_nonneg _ (le_of_lt hden)
  exact_mod_cast hnum

/-- The clamped decay factor is exactly 1 at age 0. -/
lemma calculate_decay_at_now (config : ScoringConfig) (now : ℚ) :
    IntentScorer.calculate_decay config now now = 1 := by
  unfold IntentScorer.calculate_decay
  norm_num [Real.rpow_zero]

/-- The clamped decay factor is exactly one half when the age equals the
half-life. -/
lemma calculate_decay_at_half_life (config : ScoringConfig) (now : ℚ)
    (hh : 0 < config.decay_half_life_hours) :
    IntentScorer.calculate_decay config now
      (now - config.decay_half_life_hours * 3600) = 0.5 := by
  unfold IntentScorer.calculate_decay
  have h1 : (now - (now - config.decay_half_life_hours * 3600)) / 3600 =
      config.decay_half_life_hours := by
    field_simp
  rw [h1]
  have h2 : ¬ (config.decay_half_life_hours < (0 : ℚ)) := by linarith
  simp only [h2, if_false, ite_false]
  have h3 : ((config.decay_half_life_hours : ℚ) : ℝ) /
      ((config.decay_half_life_hours : ℚ) : ℝ) = 1 := by
    apply div_self
    exact_mod_cast ne_of_gt hh
  rw [h3, Real.rpow_one]

/-- The clamped decay factor is strictly decreasing in age over non-future
timestamps. -/
lemma calculate_decay_strict (config : ScoringConfig) (now ts1 ts2 : ℚ)
    (hh : 0 < config.decay_half_life_hours) (h21 : ts2 < ts1) (h1n : ts1 ≤ now) :
    IntentScorer.calculate_decay config now ts2 <
      IntentScorer.calculate_decay config now ts1 := by
  rw [calculate_decay_of_le config now ts1 h1n,
    calculate_decay_of_le config now ts2 (by linarith)]
  rw [Real.rpow_lt_rpow_left_iff_of_base_lt_one (by norm_num) (by norm_num)]
  have hden : (0 : ℝ) < ((config.decay_half_life_hours : ℚ) : ℝ) := by exact_mod_cast hh
  have hq : ((now - ts1) / 3600 : ℚ) < ((now - ts2) / 3600 : ℚ) :=
    (div_lt_div_right (by norm_num : (0 : ℚ) < 3600)).mpr (by linarith)
  have hr : (((now - ts1) / 3600 : ℚ) : ℝ) < (((now - ts2) / 3600 : ℚ) : ℝ) := by
    exact_mod_cast hq
  exact (div_lt_div_right hden).mpr hr

/-- The unclamped pipeline decay equals 1 at age 0. -/
lemma decay_weight_at_zero_age (e : SignalEvent) (h : ℚ) :
    e.decay_weight e.timestamp h = 1 := by
  rw [decay_weight_eq]
  norm_num [SignalEvent.age_hours]

/-- The unclamped pipeline decay is strictly decreasing in age (older
timestamp means strictly smaller weight) for a positive half-life. -/
lemma decay_weight_strict (e1 e2 : SignalEvent) (ref h : ℚ) (hh : 0 < h)
    (h21 : e2.timestamp < e1.timestamp) :
    e2.decay_weight ref h < e1.decay_weight ref h := by
  rw [decay_weight_eq, decay_weight_eq]
  apply Real.exp_lt_exp.mpr
  have hhr : (0 : ℝ) < ((h : ℚ) : ℝ) := by exact_mod_cast hh
  have hq : ((ref - e1.timestamp) / 3600 : ℚ) < ((ref - e2.timestamp) / 3600 : ℚ) :=
    (div_lt_div_right (by norm_num : (0 : ℚ) < 3600)).mpr (by linarith)
  have hr : (((ref - e1.timestamp) / 3600 : ℚ) : ℝ) < (((ref - e2.timestamp) / 3600 : ℚ) : ℝ) := by
    exact_mod_cast hq
  have hmul : (-0.693 : ℝ) * (((ref - e2.timestamp) / 3600 : ℚ) : ℝ) <
      (-0.693 : ℝ) * (((ref - e1.timestamp) / 3600 : ℚ) : ℝ) := by nlinarith
  exact (div_lt_div_right hhr).mpr hmul

/-- Without the clamp, a future timestamp yields a decay factor strictly
above 1. -/
lemma decay_weight_future_gt_one (e : SignalEvent) (ref h : ℚ) (hh : 0 < h)
    (hfut : ref < e.timestamp) : 1 < e.decay_weight ref h := by
  rw [decay_weight_eq]
  apply Real.one_lt_exp_iff.mpr
  have hhr : (0 : ℝ) < ((h : ℚ) : ℝ) := by exact_mod_cast hh
  have hq : ((ref - e.timestamp) / 3600 : ℚ) < 0 :=
    div_neg_of_neg_of_pos (by linarith) (by norm_num)
  have hr : (((ref - e.timestamp) / 3600 : ℚ) : ℝ) < 0 := by exact_mod_cast hq
  have : (0 : ℝ) < (-0.693 : ℝ) * (((ref - e.timestamp) / 3600 : ℚ) : ℝ) := by nlinarith
  positivity

/-- At an age of exactly one half-life the unclamped decay is strictly above
one half but within 0.0001 of it: it is not exactly 0.5. -/
lemma decay_weight_at_half_life (e : SignalEvent) (ref h : ℚ) (hh : 0 < h)
    (hage : (ref - e.timestamp) / 3600 = h) :
    1/2 < e.decay_weight ref h ∧ e.decay_weight ref h < 0.5001 := by
  rw [decay_weight_eq, hage]
  have hne : ((h : ℚ) : ℝ) ≠ 0 := by
    have : (0 : ℝ) < ((h : ℚ) : ℝ) := by exact_mod_cast hh
    linarith
  rw [mul_div_assoc, div_self hne, mul_one]
  exact exp_neg693_bounds

/-- C1 (amended).  IntentScorer._calculate_decay computes
0.5 ^ (age_hours / half_life_hours) with future timestamps clamped to age 0,
never exceeds 1.0, equals exactly 1.0 at age 0 and exactly 0.5 at an age of
one half-life, and is strictly decreasing in age over non-future timestamps.
SignalEvent.decay_weight instead computes exp(-0.693 * age / half_life)
without any clamp: it equals 1.0 at age 0 and is strictly decreasing in age,
but it exceeds 1.0 on future timestamps and at an age of one half-life it is
strictly above 0.5 (within 0.0001 of it), not exactly 0.5. -/
theorem C1_decay_behavior :
    (∀ (config : ScoringConfig) (now ts : ℚ), 0 < config.decay_half_life_hours →
      (ts ≤ now → IntentScorer.calculate_decay config now ts =
        (0.5 : ℝ) ^ (((((now - ts) / 3600 : ℚ)) : ℝ) /
          ((config.decay_half_life_hours : ℚ) : ℝ))) ∧
      (now < ts → IntentScorer.calculate_decay config now ts = 1) ∧
      IntentScorer.calculate_decay config now ts ≤ 1) ∧
    (∀ (config : ScoringConfig) (now : ℚ),
      IntentScorer.calculate_decay config now now = 1) ∧
    (∀ (config : ScoringConfig) (now : ℚ), 0 < config.decay_half_life_hours →
      IntentScorer.calculate_decay config now
        (now - config.decay_half_life_hours * 3600) = 0.5) ∧
    (∀ (config : ScoringConfig) (now ts1 ts2 : ℚ), 0 < config.decay_half_life_hours →
      ts2 < ts1 → ts1 ≤ now →
      IntentScorer.calculate_decay config now ts2 <
        IntentScorer.calculate_decay config now ts1) ∧
    (∀ (e : SignalEvent) (h : ℚ), e.decay_weight e.timestamp h = 1) ∧
    (∀ (e1 e2 : SignalEvent) (ref h : ℚ), 0 < h → e2.timestamp < e1.timestamp →
      e2.decay_weight ref h < e1.decay_weight ref h) ∧
    (∀ (e : SignalEvent) (ref h : ℚ), 0 < h → ref < e.timestamp →
      1 < e.decay_weight ref h) ∧
    (∀ (e : SignalEvent) (ref h : ℚ), 0 < h → (ref - e.timestamp) / 3600 = h →
      1/2 < e.decay_weight ref h ∧ e.decay_weight ref h < 0.5001) :=
  ⟨fun config now ts hh =>
    ⟨calculate_decay_of_le config now ts,
     calculate_decay_of_future config now ts,
     calculate_decay_le_one config now ts hh⟩,
   calculate_decay_at_now,
   calculate_decay_at_half_life,
   calculate_decay_strict,
   decay_weight_at_zero_age,
   decay_weight_strict,
   decay_weight_future_gt_one,
   decay_weight_at_half_life⟩

/-- Witness for C1: the decay properties instantiated at the default config
(half-life 72 hours) and at a concrete signal with a concrete half-life. -/
theorem C1_decay_behavior_witness :
    IntentScorer.calculate_decay defaultScoringConfig 0 (-3600) ≤ 1 ∧
    IntentScorer.calculate_decay defaultScoringConfig 0 0 = 1 ∧
    1 < SignalEvent.decay_weight
      ⟨.DEMO_REQUEST, "user_1", 3600, .LINKEDIN, [], none, 1/2⟩ 0 168 :=
  ⟨(C1_decay_behavior.1 defaultScoringConfig 0 (-3600)
      (by norm_num [defaultScoringConfig])).2.2,
   C1_decay_behavior.2.1 defaultScoringConfig 0,
   C1_decay_behavior.2.2.2.2.2.2.1
     ⟨.DEMO_REQUEST, "user_1", 3600, .LINKEDIN, [], none, 1/2⟩ 0 168
     (by decide) (by decide)⟩

/-- Counterexample for C1 as stated: SignalEvent.decay_weight violates both
the future clamp (a signal one week in the future at half-life 168 has decay
factor strictly above 1.0) and the exact value 0.5 at an age of one
half-life (at age 168 hours with half-life 168 the factor differs from 0.5). -/
theorem C1_counterexample :
    1 < SignalEvent.decay_weight
      ⟨.DEMO_REQUEST, "user_1", 604800, .LINKEDIN, [], none, 1/2⟩ 0 168 ∧
    SignalEvent.decay_weight
      ⟨.DEMO_REQUEST, "user_1", 604800, .LINKEDIN, [], none, 1/2⟩ 1209600 168 ≠ 1/2 := by
  constructor
  · exact decay_weight_future_gt_one _ 0 168 (by norm_num) (by norm_num)
  · have h := decay_weight_at_half_life
      ⟨.DEMO_REQUEST, "user_1", 604800, .LINKEDIN, [], none, 1/2⟩ 1209600 168
      (by norm_num) (by norm_num)
    exact ne_of_gt h.1

/-! ## C8: company size scoring -/

/-- Branch values of score_company_size over an explicit positive range. -/
lemma score_company_size_in_range (config : ICPConfig) (mn mx size : ℤ)
    (hmn : 0 < mn) (hin : mn ≤ size ∧ size ≤ mx) :
    ICPMatcher.score_company_size config size (some (mn, mx)) = 1 := by
  unfold ICPMatcher.score_company_size
  have h1 : ¬ (size ≤ 0) := by omega
  simp only [h1, ite_false, Option.getD_some, hin, and_self, ite_true]

lemma score_company_size_below (config : ICPConfig) (mn mx size : ℤ)
    (h0 : 0 < size) (hlt : size < mn) (hmx : mn ≤ mx) :
    ICPMatcher.score_company_size config size (some (mn, mx)) = (size : ℚ) / (mn : ℚ) := by
  unfold ICPMatcher.score_company_size
  have h1 : ¬ (size ≤ 0) := by omega
  have h2 : ¬ (mn ≤ size ∧ size ≤ mx) := by omega
  simp only [h1, ite_false, Option.getD_some, h2, hlt, ite_true]
  have hs : (0 : ℚ) ≤ (size : ℚ) := by exact_mod_cast h0.le
  have hm : (0 : ℚ) ≤ (mn : ℚ) := by
    have : (0 : ℤ) < mn := by omega
    exact_mod_cast this.le
  exact max_eq_right (div_nonneg hs hm)

lemma score_company_size_above (config : ICPConfig) (mn mx size : ℤ)
    (hmn : 0 < mn) (hmx : mn ≤ mx) (hgt : mx < size) :
    ICPMatcher.score_company_size config size (some (mn, mx)) = (mx : ℚ) / (size : ℚ) := by
  unfold ICPMatcher.score_company_size
  have h1 : ¬ (size ≤ 0) := by omega
  have h2 : ¬ (mn ≤ size ∧ size ≤ mx) := by omega
  have h3 : ¬ (size < mn) := by omega
  simp only [h1, ite_false, Option.getD_some, h2, h3]
  have hs : (0 : ℚ) ≤ (mx : ℚ) := by
    have : (0 : ℤ) ≤ mx := by omega
    exact_mod_cast this
  have hm : (0 : ℚ) ≤ (size : ℚ) := by
    have : (0 : ℤ) ≤ size := by omega
    exact_mod_cast this
  exact max_eq_right (div_nonneg hs hm)

lemma score_company_size_nonpos (config : ICPConfig) (size : ℤ)
    (sr : Option (ℤ × ℤ)) (h0 : size ≤ 0) :
    ICPMatcher.score_company_size config size sr = 0 := by
  unfold ICPMatcher.score_company_size
  simp only [h0, ite_true]

/-- C8 (amended).  With a positive configured range, score_company_size is
exactly 1.0 inside [min, max]; for positive sizes strictly outside the
bounds it is size/min below the range and max/size above it, in both cases
strictly between 0 and 1, antitone in the distance from the bound and
falling below any positive epsilon for large enough sizes; a non-positive
size however short-circuits to exactly 0.0, not a value in (0,1). -/
theorem C8_score_company_size (config : ICPConfig) (mn mx : ℤ)
    (hmn : 0 < mn) (hmx : mn ≤ mx) :
    (∀ size : ℤ, mn ≤ size → size ≤ mx →
      ICPMatcher.score_company_size config size (some (mn, mx)) = 1) ∧
    (∀ size : ℤ, 0 < size → size < mn →
      ICPMatcher.score_company_size config size (some (mn, mx)) = (size : ℚ) / (mn : ℚ) ∧
      0 < ICPMatcher.score_company_size config size (some (mn, mx)) ∧
      ICPMatcher.score_company_size config size (some (mn, mx)) < 1) ∧
    (∀ size : ℤ, mx < size →
      ICPMatcher.score_company_size config size (some (mn, mx)) = (mx : ℚ) / (size : ℚ) ∧
      0 < ICPMatcher.score_company_size config size (some (mn, mx)) ∧
      ICPMatcher.score_company_size config size (some (mn, mx)) < 1) ∧
    (∀ size : ℤ, size ≤ 0 →
      ICPMatcher.score_company_size config size (some (mn, mx)) = 0) ∧
    (∀ s1 s2 : ℤ, mx < s1 → s1 ≤ s2 →
      ICPMatcher.score_company_size config s2 (some (mn, mx)) ≤
        ICPMatcher.score_company_size config s1 (some (mn, mx))) ∧
    (∀ s1 s2 : ℤ, 0 < s1 → s1 ≤ s2 → s2 < mn →
      ICPMatcher.score_company_size config s1 (some (mn, mx)) ≤
        ICPMatcher.score_company_size config s2 (some (mn, mx))) ∧
    (∀ ε : ℚ, 0 < ε → ∃ S : ℤ, ∀ size : ℤ, S ≤ size →
      ICPMatcher.score_company_size config size (some (mn, mx)) < ε) := by
  refine ⟨?_, ?_, ?_, ?_, ?_, ?_, ?_⟩
  · intro size h1 h2
    exact score_company_size_in_range config mn mx size hmn ⟨h1, h2⟩
  · intro size h0 hlt
    have heq := score_company_size_below config mn mx size h0 hlt hmx
    refine ⟨heq, ?_, ?_⟩
    · rw [heq]
      have hs : (0 : ℚ) < (size : ℚ) := by exact_mod_cast h0
      have hm : (0 : ℚ) < (mn : ℚ) := by exact_mod_cast hmn
      positivity
    · rw [heq]
      have hm : (0 : ℚ) < (mn : ℚ) := by exact_mod_cast hmn
      rw [div_lt_one hm]
      exact_mod_cast hlt
  · intro size hgt
    have heq := score_company_size_above config mn mx size hmn hmx hgt
    refine ⟨heq, ?_, ?_⟩
    · rw [heq]
      have hs : (0 : ℚ) < (size : ℚ) := by
        have : (0 : ℤ) < size := by omega
        exact_mod_cast this
      have hm : (0 : ℚ) < (mx : ℚ) := by
        have : (0 : ℤ) < mx := by omega
        exact_mod_cast this
      positivity
    · rw [heq]
      have hs : (0 : ℚ) < (size : ℚ) := by
        have : (0 : ℤ) < size := by omega
        exact_mod_cast this
      rw [div_lt_one hs]
      exact_mod_cast hgt
  · intro size h0
    exact score_company_size_nonpos config size (some (mn, mx)) h0
  · intro s1 s2 h1 h12
    rw [score_company_size_above config mn mx s1 hmn hmx h1,
      score_company_size_above config mn mx s2 hmn hmx (by omega)]
    have hmxq : (0 : ℚ) ≤ (mx : ℚ) := by
      have : (0 : ℤ) ≤ mx := by omega
      exact_mod_cast this
    have hs1 : (0 : ℚ) < (s1 : ℚ) := by
      have : (0 : ℤ) < s1 := by omega
      exact_mod_cast this
    have hs12 : (s1 : ℚ) ≤ (s2 : ℚ) := by exact_mod_cast h12
    exact div_le_div_of_nonneg_left hmxq hs1 hs12
  · intro s1 s2 h0 h12 h2
    rw [score_company_size_below config mn mx s1 h0 (by omega) hmx,
      score_company_size_below config mn mx s2 (by omega) h2 hmx]
    have hm : (0 : ℚ) < (mn : ℚ) := by exact_mod_cast hmn
    have hs12 : (s1 : ℚ) ≤ (s2 : ℚ) := by exact_mod_cast h12
    exact (div_le_div_right hm).mpr hs12
  · intro ε hε
    refine ⟨max (mx + 1) (⌈(mx : ℚ) / ε⌉ + 1), ?_⟩
    intro size hS
    have hgt : mx < size := by
      have := le_max_left (mx + 1) (⌈(mx : ℚ) / ε⌉ + 1)
      omega
    rw [score_company_size_above config mn mx size hmn hmx hgt]
    have hs : (0 : ℚ) < (size : ℚ) := by
      have : (0 : ℤ) < size := by omega
      exact_mod_cast this
    rw [div_lt_iff hs]
    have hceil : (mx : ℚ) / ε ≤ (⌈(mx : ℚ) / ε⌉ : ℚ) := Int.le_ceil _
    have hsize : (⌈(mx : ℚ) / ε⌉ : ℚ) + 1 ≤ (size : ℚ) := by
      have h1 : ⌈(mx : ℚ) / ε⌉ + 1 ≤ size := by
        have := le_max_right (mx + 1) (⌈(mx : ℚ) / ε⌉ + 1)
        omega
      exact_mod_cast h1
    have : (mx : ℚ) / ε < (size : ℚ) := by linarith
    calc (mx : ℚ) = ((mx : ℚ) / ε) * ε := by field_simp
      _ < (size : ℚ) * ε := by
        apply mul_lt_mul_of_pos_right this hε
      _ = ε * (size : ℚ) := by ring

/-- Witness for C8: the amended size-score properties at the default range
(50, 500) and concrete sizes 150 (inside), 1000 (above) and 25 (below). -/
theorem C8_score_company_size_witness :
    ICPMatcher.score_company_size defaultICPConfig 150 (some (50, 500)) = 1 ∧
    ICPMatcher.score_company_size defaultICPConfig 1000 (some (50, 500)) = (500 : ℚ) / 1000 ∧
    ICPMatcher.score_company_size defaultICPConfig 25 (some (50, 500)) = (25 : ℚ) / 50 := by
  have h := C8_score_company_size defaultICPConfig 50 500 (by decide) (by decide)
  exact ⟨h.1 150 (by decide) (by decide), (h.2.2.1 1000 (by decide)).1,
    (h.2.1 25 (by decide) (by decide)).1⟩

/-- Counterexample for C8 as stated: employee count 0 is strictly outside the
default range (50, 500), yet score_company_size returns exactly 0.0, which is
not a value in the open interval (0, 1). -/
theorem C8_counterexample :
    ICPMatcher.score_company_size defaultICPConfig 0 none = 0 ∧
    ¬ (0 < ICPMatcher.score_company_size defaultICPConfig 0 none) := by
  have h : ICPMatcher.score_company_size defaultICPConfig 0 none = 0 :=
    score_company_size_nonpos defaultICPConfig 0 none (by decide)
  refine ⟨h, ?_⟩
  rw [h]
  norm_num

/-! ## C7 and C10: ICP scoring -/

/-- The size dimension always lies in [0, 1]. -/
lemma score_company_size_mem (config : ICPConfig) (size : ℤ) (sr : Option (ℤ × ℤ)) :
    0 ≤ ICPMatcher.score_company_size config size sr ∧
      ICPMatcher.score_company_size config size sr ≤ 1 := by
  simp only [ICPMatcher.score_company_size]
  split_ifs with h1 h2 h3
  · norm_num
  · norm_num
  · constructor
    · exact le_max_left 0 _
    · apply max_le (by norm_num)
      have hs : (0 : ℤ) < size := by omega
      have hm : (0 : ℤ) < (sr.getD config.size_range).1 := by omega
      have hsq : (0 : ℚ) < (size : ℚ) := by exact_mod_cast hs
      have hmq : (0 : ℚ) < (((sr.getD config.size_range).1 : ℤ) : ℚ) := by exact_mod_cast hm
      apply le_of_lt
      rw [div_lt_one hmq]
      exact_mod_cast h3
  · constructor
    · exact le_max_left 0 _
    · apply max_le (by norm_num)
      have hs : (0 : ℤ) < size := by omega
      have hmx : (sr.getD config.size_range).2 < size := by
        rcases not_and_or.mp h2 with h | h
        · omega
        · omega
      have hsq : (0 : ℚ) < (size : ℚ) := by exact_mod_cast hs
      rw [div_le_one hsq]
      have : (sr.getD config.size_range).2 ≤ size := le_of_lt hmx
      exact_mod_cast this

/-- The industry dimension is 0 or 1. -/
lemma score_industry_mem (config : ICPConfig) (industry : Industry)
    (targets : Option (List String)) :
    0 ≤ ICPMatcher.score_industry config industry targets ∧
      ICPMatcher.score_industry config industry targets ≤ 1 := by
  simp only [ICPMatcher.score_industry]
  split_ifs <;> norm_num

/-- The tech-stack dimension always lies in [0, 1]. -/
lemma score_tech_stack_mem (config : ICPConfig) (tech : List String)
    (targets : Option (List String)) :
    0 ≤ ICPMatcher.score_tech_stack config tech targets ∧
      ICPMatcher.score_tech_stack config tech targets ≤ 1 := by
  simp only [ICPMatcher.score_tech_stack]
  split_ifs with h1 h2
  · norm_num
  · norm_num
  · constructor
    · apply le_min (by norm_num)
      positivity
    · exact min_le_left 1 _

/-- Values of the funding lookup with an in-range default stay in [0, 1]. -/
lemma funding_lookup_mem (k : String) (d : ℚ) (h0 : 0 ≤ d) (h1 : d ≤ 1) :
    0 ≤ (ICPMatcher.FUNDING_SCORES k).getD d ∧ (ICPMatcher.FUNDING_SCORES k).getD d ≤ 1 := by
  simp only [ICPMatcher.FUNDING_SCORES]
  split_ifs <;> simp <;> norm_num
  exact ⟨h0, h1⟩

/-- The funding dimension always lies in [0, 1]. -/
lemma score_funding_mem (config : ICPConfig) (stage min_stage : Option String) :
    0 ≤ ICPMatcher.score_funding config stage min_stage ∧
      ICPMatcher.score_funding config stage min_stage ≤ 1 := by
  simp only [ICPMatcher.score_funding]
  have h := funding_lookup_mem (ICPMatcher.normalizeStage (stage.getD "")) (0.4 : ℚ)
    (by norm_num) (by norm_num)
  split_ifs with h1 h2 h3
  all_goals first | exact h | norm_num

/-- Authority scores per seniority level lie in [0, 1]. -/
lemma authority_scores_mem (l : SeniorityLevel) :
    0 ≤ ICPMatcher.AUTHORITY_SCORES l ∧ ICPMatcher.AUTHORITY_SCORES l ≤ 1 := by
  cases l <;> norm_num [ICPMatcher.AUTHORITY_SCORES]

/-- The authority score component always lies in [0, 1]. -/
lemma score_authority_mem (title : Option String) (s : Option SeniorityLevel) :
    0 ≤ (ICPMatcher.score_authority title s).2 ∧
      (ICPMatcher.score_authority title s).2 ≤ 1 := by
  simp only [ICPMatcher.score_authority]
  exact authority_scores_mem _

/-- The authority label is always one of the two documented values. -/
lemma score_authority_label (title : Option String) (s : Option SeniorityLevel) :
    (ICPMatcher.score_authority title s).1 = "decision_maker" ∨
      (ICPMatcher.score_authority title s).1 = "influencer" := by
  simp only [ICPMatcher.score_authority]
  split_ifs <;> simp

/-- Bounds for each of the five effective dimension scores. -/
lemma size_dim_mem (config : ICPConfig) (company : Option EnrichedCompany) :
    0 ≤ ICPMatcher.size_dim config company ∧ ICPMatcher.size_dim config company ≤ 1 := by
  cases company with
  | none => norm_num [ICPMatcher.size_dim]
  | some c => exact score_company_size_mem config c.size none

lemma industry_dim_mem (config : ICPConfig) (company : Option EnrichedCompany) :
    0 ≤ ICPMatcher.industry_dim config company ∧
      ICPMatcher.industry_dim config company ≤ 1 := by
  cases company with
  | none => norm_num [ICPMatcher.industry_dim]
  | some c => exact score_industry_mem config c.industry none

lemma tech_dim_mem (config : ICPConfig) (company : Option EnrichedCompany) :
    0 ≤ ICPMatcher.tech_dim config company ∧ ICPMatcher.tech_dim config company ≤ 1 := by
  cases company with
  | none => norm_num [ICPMatcher.tech_dim]
  | some c => exact score_tech_stack_mem config c.tech_stack none

lemma funding_dim_mem (config : ICPConfig) (company : Option EnrichedCompany) :
    0 ≤ ICPMatcher.funding_dim config company ∧
      ICPMatcher.funding_dim config company ≤ 1 := by
  cases company with
  | none => norm_num [ICPMatcher.funding_dim]
  | some c => exact score_funding_mem config c.funding_stage none

lemma authority_dim_mem (contact : Option EnrichedContact) :
    0 ≤ (ICPMatcher.authority_dim contact).2 ∧
      (ICPMatcher.authority_dim contact).2 ≤ 1 := by
  cases contact with
  | none => norm_num [ICPMatcher.authority_dim]
  | some ct => exact score_authority_mem ct.title (some ct.seniority_level)

/-- C7 (amended).  For every company/contact input, each dimension score lies
in [0,1] and the ICP score equals the weighted dimension sum times 100
rounded to one decimal; the score lies in [0,100] provided the five
effective weights (each read with dict.get and its default) are nonnegative
and sum to at most 1.  The default configuration satisfies that side
condition, but ICPConfig.validate alone does not guarantee it: validate only
sums the entries present in the weight dict with a 1-percent tolerance,
while missing keys contribute their defaults on top, so a validated config
can push the score past 100. -/
theorem C7_icp_score (config : ICPConfig) (lead : Option EnrichedLead)
    (company : Option EnrichedCompany) (contact : Option EnrichedContact)
    (hw1 : 0 ≤ dget config.weights "size" 0.2)
    (hw2 : 0 ≤ dget config.weights "industry" 0.25)
    (hw3 : 0 ≤ dget config.weights "tech_stack" 0.15)
    (hw4 : 0 ≤ dget config.weights "funding" 0.15)
    (hw5 : 0 ≤ dget config.weights "authority" 0.25)
    (hsum : dget config.weights "size" 0.2 + dget config.weights "industry" 0.25 +
      dget config.weights "tech_stack" 0.15 + dget config.weights "funding" 0.15 +
      dget config.weights "authority" 0.25 ≤ 1) :
    (0 ≤ (ICPMatcher.calculate_icp_score config lead company contact).icp_score ∧
      (ICPMatcher.calculate_icp_score config lead company contact).icp_score ≤ 100) ∧
    (ICPMatcher.calculate_icp_score config lead company contact).icp_score =
      round1q ((ICPMatcher.size_dim config (ICPMatcher.effective_company lead company) *
          dget config.weights "size" 0.2 +
        ICPMatcher.industry_dim config (ICPMatcher.effective_company lead company) *
          dget config.weights "industry" 0.25 +
        ICPMatcher.tech_dim config (ICPMatcher.effective_company lead company) *
          dget config.weights "tech_stack" 0.15 +
        ICPMatcher.funding_dim config (ICPMatcher.effective_company lead company) *
          dget config.weights "funding" 0.15 +
        (ICPMatcher.authority_dim (ICPMatcher.effective_contact lead contact)).2 *
          dget config.weights "authority" 0.25) * 100) ∧
    (0 ≤ (ICPMatcher.calculate_icp_score config lead company contact).breakdown.size ∧
      (ICPMatcher.calculate_icp_score config lead company contact).breakdown.size ≤ 1) ∧
    (0 ≤ (ICPMatcher.calculate_icp_score config lead company contact).breakdown.industry ∧
      (ICPMatcher.calculate_icp_score config lead company contact).breakdown.industry ≤ 1) ∧
    (0 ≤ (ICPMatcher.calculate_icp_score config lead company contact).breakdown.tech_stack ∧
      (ICPMatcher.calculate_icp_score config lead company contact).breakdown.tech_stack ≤ 1) ∧
    (0 ≤ (ICPMatcher.calculate_icp_score config lead company contact).breakdown.funding ∧
      (ICPMatcher.calculate_icp_score config lead company contact).breakdown.funding ≤ 1) ∧
    (0 ≤ (ICPMatcher.calculate_icp_score config lead company contact).breakdown.authority ∧
      (ICPMatcher.calculate_icp_score config lead company contact).breakdown.authority ≤ 1) := by
  obtain ⟨ha0, ha1⟩ := size_dim_mem config (ICPMatcher.effective_company lead company)
  obtain ⟨hb0, hb1⟩ := industry_dim_mem config (ICPMatcher.effective_company lead company)
  obtain ⟨hc0, hc1⟩ := tech_dim_mem config (ICPMatcher.effective_company lead company)
  obtain ⟨hd0, hd1⟩ := funding_dim_mem config (ICPMatcher.effective_company lead company)
  obtain ⟨he0, he1⟩ := authority_dim_mem (ICPMatcher.effective_contact lead contact)
  have m1 := mul_le_of_le_one_left hw1 ha1
  have m2 := mul_le_of_le_one_left hw2 hb1
  have m3 := mul_le_of_le_one_left hw3 hc1
  have m4 := mul_le_of_le_one_left hw4 hd1
  have m5 := mul_le_of_le_one_left hw5 he1
  have g1 := mul_nonneg ha0 hw1
  have g2 := mul_nonneg hb0 hw2
  have g3 := mul_nonneg hc0 hw3
  have g4 := mul_nonneg hd0 hw4
  have g5 := mul_nonneg he0 hw5
  refine ⟨⟨?_, ?_⟩, rfl, round2q_bounds ha0 ha1, round2q_bounds hb0 hb1,
    round2q_bounds hc0 hc1, round2q_bounds hd0 hd1, round2q_bounds he0 he1⟩
  · exact round1q_nonneg (by nlinarith)
  · exact round1q_le_100 (by nlinarith)

/-- Witness for C7: the score bound at the default configuration with no
company or contact data. -/
theorem C7_icp_score_witness :
    0 ≤ (ICPMatcher.calculate_icp_score defaultICPConfig none none none).icp_score ∧
    (ICPMatcher.calculate_icp_score defaultICPConfig none none none).icp_score ≤ 100 :=
  (C7_icp_score defaultICPConfig none none none
    (by simp [defaultICPConfig, dget, List.find?]; try norm_num)
    (by simp [defaultICPConfig, dget, List.find?]; try norm_num)
    (by simp [defaultICPConfig, dget, List.find?]; try norm_num)
    (by simp [defaultICPConfig, dget, List.find?]; try norm_num)
    (by simp [defaultICPConfig, dget, List.find?]; try norm_num)
    (by simp [defaultICPConfig, dget, List.find?]; try norm_num)).1

/-- Configuration used to refute C7 as stated: the weight dict names only the
size and industry dimensions, with weights summing to exactly 1.0, so
ICPConfig.validate accepts it; the three missing keys then contribute their
dict.get defaults on top. -/
def cexC7Config : ICPConfig :=
  { size_range := (50, 500)
    target_industries := ["saas", "fintech"]
    target_tech_stack := []
    min_funding_stage := none
    decision_maker_levels := ["c_level", "vp", "director"]
    weights := [("size", 0.5), ("industry", 0.5)] }

/-- Company hitting full size and industry scores for the C7 counterexample. -/
def cexC7Company : EnrichedCompany :=
  ⟨"c1", "TargetCo", 150, .SAAS, [], none, some "ipo", none, some "targetco.com", none⟩

/-- C-level contact for the C7 counterexample. -/
def cexC7Contact : EnrichedContact :=
  ⟨"u1", "Jane Roe", none, none, none, .C_LEVEL, none, none⟩

/-- Counterexample for C7 as stated: a config accepted by ICPConfig.validate
(weights sum exactly to 1.0) on which calculate_icp_score returns 147.5,
outside [0, 100]. -/
theorem C7_counterexample :
    cexC7Config.validate = true ∧
    (ICPMatcher.calculate_icp_score cexC7Config none (some cexC7Company)
      (some cexC7Contact)).icp_score = 147.5 ∧
    ¬ ((ICPMatcher.calculate_icp_score cexC7Config none (some cexC7Company)
      (some cexC7Contact)).icp_score ≤ 100) := by
  have heval : (ICPMatcher.calculate_icp_score cexC7Config none (some cexC7Company)
      (some cexC7Contact)).icp_score = 147.5 := by
    have hnorm : ICPMatcher.normalizeStage "ipo" = "ipo" := by decide
    have hsize : ICPMatcher.size_dim cexC7Config (some cexC7Company) = 1 := by
      simp [ICPMatcher.size_dim, ICPMatcher.score_company_size, cexC7Config, cexC7Company]
    have hind : ICPMatcher.industry_dim cexC7Config (some cexC7Company) = 1 := by
      simp [ICPMatcher.industry_dim, ICPMatcher.score_industry, cexC7Config, cexC7Company,
        Industry.value]
    have htech : ICPMatcher.tech_dim cexC7Config (some cexC7Company) = 0.5 := by
      simp [ICPMatcher.tech_dim, ICPMatcher.score_tech_stack, cexC7Config, cexC7Company]
    have hfund : ICPMatcher.funding_dim cexC7Config (some cexC7Company) = 1 := by
      simp [ICPMatcher.funding_dim, ICPMatcher.score_funding, cexC7Config, cexC7Company,
        truthyOptStr, pyOr, hnorm, ICPMatcher.FUNDING_SCORES]
      norm_num
    have hauth : ICPMatcher.authority_dim (some cexC7Contact) = ("decision_maker", 1) := by
      simp [ICPMatcher.authority_dim, ICPMatcher.score_authority, cexC7Contact,
        ICPMatcher.AUTHORITY_SCORES]
      norm_num
    simp only [ICPMatcher.calculate_icp_score, ICPMatcher.effective_company,
      ICPMatcher.effective_contact, hsize, hind, htech, hfund, hauth]
    simp [cexC7Config, dget, List.find?]
    norm_num [round1q, round_eq]
  refine ⟨?_, heval, ?_⟩
  · simp only [ICPConfig.validate, cexC7Config, decide_eq_true_eq]
    norm_num
  · rw [heval]
    norm_num

/-- C10 (confirmed).  With neither a company nor a contact (and a lead
carrying neither), calculate_icp_score under the default config returns the
fixed default breakdown (size 0.0, industry 0.0, tech_stack 0.5,
funding 0.3, authority 0.2), authority_level "unknown" and icp_score 17.0;
"unknown" lies outside the two-valued codomain score_authority itself ever
produces. -/
theorem C10_default_icp (l : Option EnrichedLead)
    (hl : ∀ x, l = some x → x.company = none ∧ x.contact = none) :
    ICPMatcher.calculate_icp_score defaultICPConfig l none none =
      ⟨17.0, ⟨0, 0, 0.5, 0.3, 0.2⟩, "unknown"⟩ ∧
    (ICPMatcher.calculate_icp_score defaultICPConfig l none none).authority_level ≠
      "decision_maker" ∧
    (ICPMatcher.calculate_icp_score defaultICPConfig l none none).authority_level ≠
      "influencer" ∧
    (∀ (t : Option String) (s : Option SeniorityLevel),
      (ICPMatcher.score_authority t s).1 = "decision_maker" ∨
      (ICPMatcher.score_authority t s).1 = "influencer") := by
  have hcomp : ICPMatcher.effective_company l none = none := by
    cases l with
    | none => rfl
    | some x => simp [ICPMatcher.effective_company, (hl x rfl).1]
  have hcont : ICPMatcher.effective_contact l none = none := by
    cases l with
    | none => rfl
    | some x => simp [ICPMatcher.effective_contact, (hl x rfl).2]
  have heval : ICPMatcher.calculate_icp_score defaultICPConfig l none none =
      ⟨17.0, ⟨0, 0, 0.5, 0.3, 0.2⟩, "unknown"⟩ := by
    simp only [ICPMatcher.calculate_icp_score, hcomp, hcont, ICPMatcher.size_dim,
      ICPMatcher.industry_dim, ICPMatcher.tech_dim, ICPMatcher.funding_dim,
      ICPMatcher.authority_dim]
    simp [defaultICPConfig, dget, List.find?]
    norm_num [round1q, round2q, round_eq]
  refine ⟨heval, ?_, ?_, score_authority_label⟩
  · rw [heval]
    simp
  · rw [heval]
    simp

/-- Witness for C10: the default record for a concrete lead with no company
and no contact attached. -/
theorem C10_default_icp_witness :
    ICPMatcher.calculate_icp_score defaultICPConfig
      (some ⟨"u9", none, none, none, none, []⟩) none none =
      ⟨17.0, ⟨0, 0, 0.5, 0.3, 0.2⟩, "unknown"⟩ :=
  (C10_default_icp (some ⟨"u9", none, none, none, none, []⟩)
    (fun x hx => by cases hx; exact ⟨rfl, rfl⟩)).1

/-! ## C9: SignalEvent serialization round trip -/

/-- Enum value lookup inverts the value map for signal types. -/
lemma signalType_ofValue_value (t : SignalType) : SignalType.ofValue t.value = some t := by
  cases t <;> rfl

/-- Enum value lookup inverts the value map for signal sources. -/
lemma signalSource_ofValue_value (s : SignalSource) :
    SignalSource.ofValue s.value = some s := by
  cases s <;> rfl

/-- C9 (confirmed).  For every valid SignalEvent (strength within [0,1] and a
non-empty user id), from_dict inverts to_dict, reconstructing every field. -/
theorem C9_signal_roundtrip (e : SignalEvent) (h0 : 0 ≤ e.strength)
    (h1 : e.strength ≤ 1) (hu : e.user_id ≠ "") :
    SignalEvent.from_dict (SignalEvent.to_dict e) = .ok e := by
  simp only [SignalEvent.to_dict, SignalEvent.from_dict, signalType_ofValue_value,
    signalSource_ofValue_value, mkSignalEvent, Option.getD_some]
  rw [if_neg (not_not_intro ⟨h0, h1⟩), if_neg hu]

/-- Witness for C9: the round trip on a concrete valid signal. -/
theorem C9_signal_roundtrip_witness :
    SignalEvent.from_dict (SignalEvent.to_dict
      ⟨.FUNDING_ROUND, "user_7", 1700000000, .CRUNCHBASE,
        [("round_type", "series_a"), ("amount", "5000000")], some "companyX", 0.9⟩) =
    .ok ⟨.FUNDING_ROUND, "user_7", 1700000000, .CRUNCHBASE,
      [("round_type", "series_a"), ("amount", "5000000")], some "companyX", 0.9⟩ :=
  C9_signal_roundtrip _ (by norm_num) (by norm_num) (by decide)

/-! ## C2: competitor exclusion in the high-intent filter -/

/-- A configured competitor whose lowered name occurs in the lowered company
name makes check_exclusions fire, provided the company has a truthy website
(the guard the source checks first). -/
lemma check_exclusions_competitor (config : EngagementConfig) (lead : EnrichedLead)
    (c : EnrichedCompany) (hc : lead.company = some c)
    (hw : truthyOptStr c.website = true) (comp : String)
    (hmem : comp ∈ config.competitors)
    (hmatch : strIn (pyLower comp) (pyLower c.name) = true) :
    HighIntentFilter.check_exclusions config lead = some "Competitor detected" := by
  unfold HighIntentFilter.check_exclusions
  rw [hc]
  have hfind : (config.competitors.find?
      (fun comp2 => strIn (pyLower comp2) (pyLower c.name))).isSome := by
    rw [List.find?_isSome]
    exact ⟨comp, hmem, hmatch⟩
  obtain ⟨r, hr⟩ := Option.isSome_iff_exists.mp hfind
  simp [hw, hr]

/-- C2 (amended).  For every lead whose company is present with a truthy
(non-empty) website and whose company name contains a configured competitor
substring case-insensitively, evaluate_lead short-circuits before any
threshold check: it returns should_engage = false, priority LOW and the
reason "Exclusion: Competitor detected" (which contains "Competitor
detected"), for every intent score and ICP score.  The website guard is
essential: the source returns early from _check_exclusions when the website
is falsy, skipping the competitor check entirely. -/
theorem C2_competitor_exclusion (config : EngagementConfig) (fmt : ℝ → String)
    (t : String) (lead : EnrichedLead) (c : EnrichedCompany)
    (intent_score : IntentScore) (icp_score_val : ℝ)
    (hc : lead.company = some c) (hw : truthyOptStr c.website = true)
    (comp : String) (hmem : comp ∈ config.competitors)
    (hmatch : strIn (pyLower comp) (pyLower c.name) = true) :
    HighIntentFilter.evaluate_lead config fmt t lead intent_score icp_score_val =
      ⟨false, .LOW, "Exclusion: " ++ "Competitor detected", t⟩ ∧
    strIn "Competitor detected"
      (HighIntentFilter.evaluate_lead config fmt t lead intent_score
        icp_score_val).reason = true := by
  have hex := check_exclusions_competitor config lead c hc hw comp hmem hmatch
  have heq : HighIntentFilter.evaluate_lead config fmt t lead intent_score icp_score_val =
      ⟨false, .LOW, "Exclusion: " ++ "Competitor detected", t⟩ := by
    unfold HighIntentFilter.evaluate_lead
    rw [hex]
  refine ⟨heq, ?_⟩
  rw [heq]
  show strIn "Competitor detected" ("Exclusion: " ++ "Competitor detected") = true
  decide

/-- Witness for C2: the exclusion decision on a concrete competitor lead with
a website, at scores that would otherwise qualify the lead. -/
theorem C2_competitor_exclusion_witness :
    HighIntentFilter.evaluate_lead
      ⟨70.0, 80.0, [], ["acme"], 50⟩ (fun _ => "") "t0"
      ⟨"u2", none, some ⟨"c2", "Acme Corp", 100, .SAAS, [], none, none, none,
        some "acme.example", none⟩, none, none, []⟩
      ⟨85, .HIGH, 0, 0, 1, [], ⟨false, 1, 0, none⟩, 0⟩ 90 =
      ⟨false, .LOW, "Exclusion: " ++ "Competitor detected", "t0"⟩ :=
  (C2_competitor_exclusion ⟨70.0, 80.0, [], ["acme"], 50⟩ (fun _ => "") "t0"
    ⟨"u2", none, some ⟨"c2", "Acme Corp", 100, .SAAS, [], none, none, none,
      some "acme.example", none⟩, none, none, []⟩
    ⟨"c2", "Acme Corp", 100, .SAAS, [], none, none, none, some "acme.example", none⟩
    ⟨85, .HIGH, 0, 0, 1, [], ⟨false, 1, 0, none⟩, 0⟩ 90 rfl (by decide)
    "acme" (by decide) (by decide)).1

/-- Counterexample for C2 as stated: a lead whose company name contains the
configured competitor "acme" but whose website is None is engaged with
should_engage = true when its scores pass the thresholds, because
_check_exclusions returns early on a falsy website without consulting the
competitor list. -/
theorem C2_counterexample :
    strIn (pyLower "acme") (pyLower "Acme Corp") = true ∧
    (HighIntentFilter.evaluate_lead ⟨70.0, 80.0, [], ["acme"], 50⟩ (fun _ => "") "t0"
      ⟨"u2", none, some ⟨"c2", "Acme Corp", 100, .SAAS, [], none, none, none, none, none⟩,
        none, none, []⟩
      ⟨85, .HIGH, 0, 0, 1, [], ⟨false, 1, 0, none⟩, 0⟩ 90).should_engage = true := by
  constructor
  · decide
  · have hex : HighIntentFilter.check_exclusions ⟨70.0, 80.0, [], ["acme"], 50⟩
        ⟨"u2", none, some ⟨"c2", "Acme Corp", 100, .SAAS, [], none, none, none, none,
          none⟩, none, none, []⟩ = none := by
      unfold HighIntentFilter.check_exclusions
      simp [truthyOptStr]
    unfold HighIntentFilter.evaluate_lead
    simp only [hex]
    split_ifs with h1
    · rfl
    · exact (h1 ⟨by norm_num, by norm_num⟩).elim
    · exact (h1 ⟨by norm_num, by norm_num⟩).elim

/-! ## C5: buying-committee multiplier -/

/-- Specification-side set for the committee rule: the distinct non-empty
user ids different from the scored user that have at least one company
signal strictly inside the 30-day window. -/
def other_active_users (now : ℚ) (current : String) (cs : List SignalEvent) :
    Finset String :=
  ((cs.map (·.user_id)).toFinset).filter
    (fun u => u ≠ "" ∧ u ≠ current ∧
      ∃ s ∈ cs, s.user_id = u ∧ now - 30 * 24 * 3600 < s.timestamp)

/-- The set the code accumulates equals the specification-side set. -/
lemma active_users_eq (now : ℚ) (current : String) (cs : List SignalEvent) :
    ((cs.filter (fun s => decide (now - 30 * 24 * 3600 < s.timestamp ∧
        s.user_id ≠ "" ∧ s.user_id ≠ current))).map (·.user_id)).toFinset =
      other_active_users now current cs := by
  ext u
  simp only [List.mem_toFinset, List.mem_map, List.mem_filter, other_active_users,
    Finset.mem_filter, decide_eq_true_eq]
  constructor
  · rintro ⟨s, ⟨hs, ht, hne, hnc⟩, rfl⟩
    exact ⟨⟨s, hs, rfl⟩, hne, hnc, s, hs, rfl, ht⟩
  · rintro ⟨⟨s0, hs0, rfl⟩, hne, hnc, s, hs, hu, ht⟩
    refine ⟨s, ⟨hs, ht, ?_, ?_⟩, hu⟩
    · rw [hu]; exact hne
    · rw [hu]; exact hnc

/-- C5 (confirmed).  The committee multiplier is exactly 1.0 when no other
distinct user has a company signal in the last 30 days, 1.2 for exactly one
such user, and 1.5 for two or more; stale signals and signals of the scored
user (or with an empty user id, which the code treats as falsy) never count. -/
theorem C5_buying_committee (now : ℚ) (current : String) (cs : List SignalEvent) :
    ((other_active_users now current cs).card = 0 →
      IntentScorer.detect_buying_committee now current cs = 1.0) ∧
    ((other_active_users now current cs).card = 1 →
      IntentScorer.detect_buying_committee now current cs = 1.2) ∧
    (2 ≤ (other_active_users now current cs).card →
      IntentScorer.detect_buying_committee now current cs = 1.5) ∧
    (IntentScorer.detect_buying_committee now current cs = 1.0 ∨
      IntentScorer.detect_buying_committee now current cs = 1.2 ∨
      IntentScorer.detect_buying_committee now current cs = 1.5) := by
  by_cases hcs : cs = []
  · subst hcs
    have hd : IntentScorer.detect_buying_committee now current [] = 1.0 := by
      simp [IntentScorer.detect_buying_committee]
    have hempty : other_active_users now current ([] : List SignalEvent) = ∅ := by
      simp [other_active_users]
    rw [hd, hempty]
    refine ⟨fun _ => rfl, fun h => ?_, fun h => ?_, Or.inl rfl⟩
    · simp at h
    · simp at h
  · have hd : IntentScorer.detect_buying_committee now current cs =
        (if 1 ≤ (other_active_users now current cs).card then
          (if 2 ≤ (other_active_users now current cs).card then 1.5 else 1.2)
        else 1.0) := by
      simp only [IntentScorer.detect_buying_committee, hcs, if_false, ite_false,
        active_users_eq]
    rw [hd]
    refine ⟨?_, ?_, ?_, ?_⟩
    · intro h
      rw [if_neg (by omega)]
    · intro h
      rw [if_pos (by omega), if_neg (by omega)]
    · intro h
      rw [if_pos (by omega), if_pos (by omega)]
    · split_ifs
      · exact Or.inr (Or.inr rfl)
      · exact Or.inr (Or.inl rfl)
      · exact Or.inl rfl

/-- Witness for C5: two other active users within the window yield 1.5, while
the scored user and a stale signal never count. -/
theorem C5_buying_committee_witness :
    IntentScorer.detect_buying_committee 1000000 "me"
      [⟨.PROFILE_VISIT, "me", 999000, .LINKEDIN, [], none, 1/2⟩,
       ⟨.PROFILE_VISIT, "peer1", 999000, .LINKEDIN, [], none, 1/2⟩,
       ⟨.CONTENT_ENGAGEMENT, "peer2", 998000, .LINKEDIN, [], none, 1/2⟩,
       ⟨.CONTENT_ENGAGEMENT, "peer3", -2000000, .LINKEDIN, [], none, 1/2⟩] = 1.5 := by
  apply (C5_buying_committee 1000000 "me" _).2.2.1
  have h1 : "peer1" ∈ other_active_users 1000000 "me"
      [⟨.PROFILE_VISIT, "me", 999000, .LINKEDIN, [], none, 1/2⟩,
       ⟨.PROFILE_VISIT, "peer1", 999000, .LINKEDIN, [], none, 1/2⟩,
       ⟨.CONTENT_ENGAGEMENT, "peer2", 998000, .LINKEDIN, [], none, 1/2⟩,
       ⟨.CONTENT_ENGAGEMENT, "peer3", -2000000, .LINKEDIN, [], none, 1/2⟩] := by
    simp only [other_active_users, Finset.mem_filter, List.mem_toFinset, List.mem_map]
    refine ⟨⟨⟨.PROFILE_VISIT, "peer1", 999000, .LINKEDIN, [], none, 1/2⟩,
      List.mem_cons_of_mem _ (List.mem_cons_self _ _), rfl⟩, by decide, by decide,
      ⟨.PROFILE_VISIT, "peer1", 999000, .LINKEDIN, [], none, 1/2⟩,
      List.mem_cons_of_mem _ (List.mem_cons_self _ _), rfl, by norm_num⟩
  have h2 : "peer2" ∈ other_active_users 1000000 "me"
      [⟨.PROFILE_VISIT, "me", 999000, .LINKEDIN, [], none, 1/2⟩,
       ⟨.PROFILE_VISIT, "peer1", 999000, .LINKEDIN, [], none, 1/2⟩,
       ⟨.CONTENT_ENGAGEMENT, "peer2", 998000, .LINKEDIN, [], none, 1/2⟩,
       ⟨.CONTENT_ENGAGEMENT, "peer3", -2000000, .LINKEDIN, [], none, 1/2⟩] := by
    simp only [other_active_users, Finset.mem_filter, List.mem_toFinset, List.mem_map]
    refine ⟨⟨⟨.CONTENT_ENGAGEMENT, "peer2", 998000, .LINKEDIN, [], none, 1/2⟩,
      List.mem_cons_of_mem _ (List.mem_cons_of_mem _ (List.mem_cons_self _ _)), rfl⟩,
      by decide, by decide,
      ⟨.CONTENT_ENGAGEMENT, "peer2", 998000, .LINKEDIN, [], none, 1/2⟩,
      List.mem_cons_of_mem _ (List.mem_cons_of_mem _ (List.mem_cons_self _ _)), rfl,
      by norm_num⟩
  have hsub : ({"peer1", "peer2"} : Finset String) ⊆ other_active_users 1000000 "me"
      [⟨.PROFILE_VISIT, "me", 999000, .LINKEDIN, [], none, 1/2⟩,
       ⟨.PROFILE_VISIT, "peer1", 999000, .LINKEDIN, [], none, 1/2⟩,
       ⟨.CONTENT_ENGAGEMENT, "peer2", 998000, .LINKEDIN, [], none, 1/2⟩,
       ⟨.CONTENT_ENGAGEMENT, "peer3", -2000000, .LINKEDIN, [], none, 1/2⟩] := by
    intro x hx
    rcases Finset.mem_insert.mp hx with hx1 | hx2
    · rw [hx1]; exact h1
    · rw [Finset.mem_singleton.mp hx2]; exact h2
  calc (2 : ℕ) = ({"peer1", "peer2"} : Finset String).card := by decide
    _ ≤ _ := Finset.card_le_card hsub

/-! ## C4 and C6: intent score shape, bounds and monotonicity -/

/-- The composite score as the source computes it: sigmoid of the bias plus
the scaled signal mass plus the committee boost, times 100, rounded. -/
lemma score_def (config : ScoringConfig) (now : ℚ) (signals : List SignalEvent)
    (lead : Option EnrichedLead) (company_signals : Option (List SignalEvent)) :
    (IntentScorer.calculate_intent_score config now signals lead company_signals).score =
      round1r (IntentScorer.sigmoid (-3.0 +
        (signals.map (fun s => IntentScorer.signal_weight config now s * 0.1)).sum +
        ((IntentScorer.committee_boost now lead company_signals : ℚ) : ℝ)) * 100.0) := rfl

/-- The label as the source computes it, from the unrounded final score. -/
lemma label_def (config : ScoringConfig) (now : ℚ) (signals : List SignalEvent)
    (lead : Option EnrichedLead) (company_signals : Option (List SignalEvent)) :
    (IntentScorer.calculate_intent_score config now signals lead company_signals).label =
      IntentScorer.determine_label config (IntentScorer.sigmoid (-3.0 +
        (signals.map (fun s => IntentScorer.signal_weight config now s * 0.1)).sum +
        ((IntentScorer.committee_boost now lead company_signals : ℚ) : ℝ)) * 100.0) := rfl

/-- The scaled signal mass is one tenth of the raw weighted mass. -/
lemma scaled_mass_eq (config : ScoringConfig) (now : ℚ) (signals : List SignalEvent) :
    (signals.map (fun s => IntentScorer.signal_weight config now s * 0.1)).sum =
      IntentScorer.total_raw_weight config now signals * 0.1 :=
  List.sum_map_mul_right signals (IntentScorer.signal_weight config now) 0.1

lemma sigmoid_pos (x : ℝ) : 0 < IntentScorer.sigmoid x := by
  unfold IntentScorer.sigmoid
  have := Real.exp_pos (-(max (-50) (min 50 x)))
  positivity

lemma sigmoid_lt_one (x : ℝ) : IntentScorer.sigmoid x < 1 := by
  unfold IntentScorer.sigmoid
  have h := Real.exp_pos (-(max (-50) (min 50 x)))
  rw [div_lt_one (by linarith)]
  linarith

lemma sigmoid_mono {x y : ℝ} (h : x ≤ y) :
    IntentScorer.sigmoid x ≤ IntentScorer.sigmoid y := by
  have hc : max (-50 : ℝ) (min 50 x) ≤ max (-50) (min 50 y) :=
    max_le_max le_rfl (min_le_min le_rfl h)
  have he : Real.exp (-(max (-50 : ℝ) (min 50 y))) ≤ Real.exp (-(max (-50) (min 50 x))) :=
    Real.exp_le_exp.mpr (by linarith)
  have h1 := Real.exp_pos (-(max (-50 : ℝ) (min 50 y)))
  show (1.0 : ℝ) / (1.0 + Real.exp (-(max (-50) (min 50 x)))) ≤
    (1.0 : ℝ) / (1.0 + Real.exp (-(max (-50) (min 50 y))))
  apply div_le_div_of_nonneg_left (by norm_num) (by linarith) (by linarith)

/-- Monotone step from logits to the final rounded score. -/
lemma score_mono_of_logits {a b : ℝ} (h : a ≤ b) :
    round1r (IntentScorer.sigmoid a * 100.0) ≤ round1r (IntentScorer.sigmoid b * 100.0) :=
  round1r_mono (by nlinarith [sigmoid_mono h])

/-- The rounded score is always within [0, 100]. -/
lemma score_bounds_of_logits (a : ℝ) :
    0 ≤ round1r (IntentScorer.sigmoid a * 100.0) ∧
      round1r (IntentScorer.sigmoid a * 100.0) ≤ 100 :=
  ⟨round1r_nonneg (by nlinarith [sigmoid_pos a]),
   round1r_le_100 (by nlinarith [sigmoid_lt_one a])⟩

/-- The committee detector only ever returns 1.0, 1.2 or 1.5. -/
lemma detect_cases (now : ℚ) (current : String) (cs : List SignalEvent) :
    IntentScorer.detect_buying_committee now current cs = 1.0 ∨
    IntentScorer.detect_buying_committee now current cs = 1.2 ∨
    IntentScorer.detect_buying_committee now current cs = 1.5 := by
  simp only [IntentScorer.detect_buying_committee]
  split_ifs
  · exact Or.inl rfl
  · exact Or.inr (Or.inr rfl)
  · exact Or.inr (Or.inl rfl)
  · exact Or.inl rfl

/-- The effective committee factor only ever takes the three table values. -/
lemma effective_factor_cases (now : ℚ) (lead : Option EnrichedLead)
    (cs : Option (List SignalEvent)) :
    IntentScorer.effective_committee_factor now lead cs = 1.0 ∨
    IntentScorer.effective_committee_factor now lead cs = 1.2 ∨
    IntentScorer.effective_committee_factor now lead cs = 1.5 := by
  unfold IntentScorer.effective_committee_factor
  match lead, cs with
  | none, none => exact Or.inl rfl
  | none, some _ => exact Or.inl rfl
  | some l, none => exact Or.inl rfl
  | some l, some cs0 =>
    dsimp only
    split_ifs
    · exact detect_cases now l.user_id cs0
    · exact Or.inl rfl

/-- The committee boost is the table image of the effective factor. -/
lemma committee_boost_eq (now : ℚ) (lead : Option EnrichedLead)
    (cs : Option (List SignalEvent)) :
    IntentScorer.committee_boost now lead cs =
      (if 1.0 < IntentScorer.effective_committee_factor now lead cs then
        (if 1.5 ≤ IntentScorer.effective_committee_factor now lead cs then 1.5 else 0.8)
      else 0.0) := by
  unfold IntentScorer.committee_boost IntentScorer.committee_gate
    IntentScorer.effective_committee_factor
  match lead, cs with
  | none, none => dsimp only; norm_num
  | none, some _ => dsimp only; norm_num
  | some l, none => dsimp only; norm_num
  | some l, some cs0 =>
    dsimp only
    by_cases h1 : l.company.isSome = true <;> by_cases h2 : cs0 = [] <;>
      simp [h1, h2] <;> norm_num

/-- The boost table is monotone over the three factor values. -/
lemma committee_boost_mono (now : ℚ) (lead : Option EnrichedLead)
    (cs1 cs2 : Option (List SignalEvent))
    (h : IntentScorer.effective_committee_factor now lead cs1 ≤
      IntentScorer.effective_committee_factor now lead cs2) :
    IntentScorer.committee_boost now lead cs1 ≤ IntentScorer.committee_boost now lead cs2 := by
  rw [committee_boost_eq, committee_boost_eq]
  rcases effective_factor_cases now lead cs1 with h1 | h1 | h1 <;>
    rcases effective_factor_cases now lead cs2 with h2 | h2 | h2 <;>
    rw [h1, h2] at h ⊢ <;> norm_num at h ⊢

/-- Monotonicity of the composite score in the total weighted signal mass,
with the committee inputs held fixed. -/
lemma score_mono_in_mass (config : ScoringConfig) (now : ℚ) (lead : Option EnrichedLead)
    (cs : Option (List SignalEvent)) (s1 s2 : List SignalEvent)
    (h : IntentScorer.total_raw_weight config now s1 ≤
      IntentScorer.total_raw_weight config now s2) :
    (IntentScorer.calculate_intent_score config now s1 lead cs).score ≤
      (IntentScorer.calculate_intent_score config now s2 lead cs).score := by
  rw [score_def, score_def, scaled_mass_eq, scaled_mass_eq]
  exact score_mono_of_logits (by nlinarith)

/-- C4 (confirmed).  The composite intent score is always within [0, 100]; it
is monotone nondecreasing in the total weighted signal mass (in particular,
appending a signal with nonnegative weighted contribution never lowers it)
and monotone in the committee factor: company-signal lists producing a
higher multiplier (1.2 or 1.5 versus 1.0) never yield a lower score on
otherwise identical inputs. -/
theorem C4_intent_score_monotone :
    (∀ (config : ScoringConfig) (now : ℚ) (signals : List SignalEvent)
      (lead : Option EnrichedLead) (cs : Option (List SignalEvent)),
      0 ≤ (IntentScorer.calculate_intent_score config now signals lead cs).score ∧
      (IntentScorer.calculate_intent_score config now signals lead cs).score ≤ 100) ∧
    (∀ (config : ScoringConfig) (now : ℚ) (lead : Option EnrichedLead)
      (cs : Option (List SignalEvent)) (s1 s2 : List SignalEvent),
      IntentScorer.total_raw_weight config now s1 ≤
        IntentScorer.total_raw_weight config now s2 →
      (IntentScorer.calculate_intent_score config now s1 lead cs).score ≤
        (IntentScorer.calculate_intent_score config now s2 lead cs).score) ∧
    (∀ (config : ScoringConfig) (now : ℚ) (lead : Option EnrichedLead)
      (cs : Option (List SignalEvent)) (signals : List SignalEvent) (x : SignalEvent),
      0 ≤ IntentScorer.signal_weight config now x →
      (IntentScorer.calculate_intent_score config now signals lead cs).score ≤
        (IntentScorer.calculate_intent_score config now (signals ++ [x]) lead cs).score) ∧
    (∀ (config : ScoringConfig) (now : ℚ) (signals : List SignalEvent)
      (lead : Option EnrichedLead) (cs1 cs2 : Option (List SignalEvent)),
      IntentScorer.effective_committee_factor now lead cs1 ≤
        IntentScorer.effective_committee_factor now lead cs2 →
      (IntentScorer.calculate_intent_score config now signals lead cs1).score ≤
        (IntentScorer.calculate_intent_score config now signals lead cs2).score) := by
  refine ⟨?_, fun config now lead cs s1 s2 h => score_mono_in_mass config now lead cs s1 s2 h, ?_, ?_⟩
  · intro config now signals lead cs
    rw [score_def]
    exact score_bounds_of_logits _
  · intro config now lead cs signals x hx
    apply score_mono_in_mass
    unfold IntentScorer.total_raw_weight
    rw [List.map_append, List.sum_append]
    simp only [List.map_cons, List.map_nil, List.sum_cons, List.sum_nil, add_zero]
    linarith
  · intro config now signals lead cs1 cs2 h
    rw [score_def, score_def]
    have hb := committee_boost_mono now lead cs1 cs2 h
    have hbr : ((IntentScorer.committee_boost now lead cs1 : ℚ) : ℝ) ≤
        ((IntentScorer.committee_boost now lead cs2 : ℚ) : ℝ) := by exact_mod_cast hb
    exact score_mono_of_logits (by linarith)

/-- Witness for C4: the bound and both monotonicity parts at concrete inputs
(the empty mass versus itself and equal committee factors). -/
theorem C4_intent_score_monotone_witness :
    (0 ≤ (IntentScorer.calculate_intent_score defaultScoringConfig 0 [] none none).score ∧
      (IntentScorer.calculate_intent_score defaultScoringConfig 0 [] none none).score ≤ 100) ∧
    (IntentScorer.calculate_intent_score defaultScoringConfig 0 [] none none).score ≤
      (IntentScorer.calculate_intent_score defaultScoringConfig 0 [] none none).score ∧
    (IntentScorer.calculate_intent_score defaultScoringConfig 0 [] none
      (some [])).score ≤
      (IntentScorer.calculate_intent_score defaultScoringConfig 0 [] none
        (some [⟨.DEMO_REQUEST, "other", 0, .LINKEDIN, [], none, 1/2⟩])).score :=
  ⟨C4_intent_score_monotone.1 defaultScoringConfig 0 [] none none,
   C4_intent_score_monotone.2.1 defaultScoringConfig 0 none none [] [] le_rfl,
   C4_intent_score_monotone.2.2.2 defaultScoringConfig 0 [] none (some [])
     (some [⟨.DEMO_REQUEST, "other", 0, .LINKEDIN, [], none, 1/2⟩])
     (by
       have h1 : IntentScorer.effective_committee_factor 0 (none : Option EnrichedLead)
           (some []) = 1.0 := rfl
       rw [h1]
       rcases effective_factor_cases 0 none
           (some [⟨.DEMO_REQUEST, "other", 0, .LINKEDIN, [], none, 1/2⟩]) with h | h | h <;>
         rw [h] <;> norm_num)⟩

/-- Association-list lookup with a nonnegative default over nonnegative
values is nonnegative. -/
lemma dget_nonneg (d : List (String × ℚ)) (k : String) (dflt : ℚ) (hd : 0 ≤ dflt)
    (h : ∀ p ∈ d, 0 ≤ p.2) : 0 ≤ dget d k dflt := by
  unfold dget
  cases hfind : d.find? (fun p => p.1 == k) with
  | none => exact hd
  | some p => exact h p (List.mem_of_find?_eq_some hfind)

/-- The resolved action modifier is nonnegative over nonnegative tables. -/
lemma resolve_modifier_nonneg (mods : List (String × ℚ)) (a : String)
    (h : ∀ p ∈ mods, 0 ≤ p.2) : 0 ≤ IntentScorer.resolve_modifier mods a := by
  unfold IntentScorer.resolve_modifier
  cases hfind : mods.find? (fun p => strIn p.1 (pyLower a)) with
  | none => norm_num
  | some p => exact h p (List.mem_of_find?_eq_some hfind)

/-- All default base signal weights are nonnegative. -/
lemma default_signal_weights_nonneg :
    ∀ p ∈ defaultScoringConfig.signal_weights, 0 ≤ p.2 := by
  intro p hp
  fin_cases hp <;> norm_num

/-- All default action modifiers are nonnegative. -/
lemma default_action_modifiers_nonneg :
    ∀ p ∈ defaultScoringConfig.action_modifiers, 0 ≤ p.2 := by
  intro p hp
  fin_cases hp <;> norm_num

/-- The rational part of a signal contribution is nonnegative whenever the
config tables are nonnegative and the signal strength is nonnegative. -/
lemma signal_weight_q_nonneg (config : ScoringConfig) (s : SignalEvent)
    (h1 : ∀ p ∈ config.signal_weights, 0 ≤ p.2)
    (h2 : ∀ p ∈ config.action_modifiers, 0 ≤ p.2) (hs : 0 ≤ s.strength) :
    0 ≤ IntentScorer.signal_weight_q config s := by
  unfold IntentScorer.signal_weight_q
  have hbase := dget_nonneg config.signal_weights s.type.value 5.0 (by norm_num) h1
  have hmod : 0 ≤ (if s.data = [] then (1.0 : ℚ)
      else if truthyOptStr (pyOr (sget s.data "event_type") (sget s.data "round_type")) then
        IntentScorer.resolve_modifier config.action_modifiers
          ((pyOr (sget s.data "event_type") (sget s.data "round_type")).getD "")
      else 1.0) := by
    split_ifs
    · norm_num
    · exact resolve_modifier_nonneg config.action_modifiers _ h2
    · norm_num
  exact mul_nonneg (mul_nonneg hbase hmod) hs

/-- The clamped decay factor is strictly positive. -/
lemma calculate_decay_pos (config : ScoringConfig) (now ts : ℚ) :
    0 < IntentScorer.calculate_decay config now ts := by
  unfold IntentScorer.calculate_decay
  exact Real.rpow_pos_of_pos (by norm_num) _

/-- The full weighted contribution of a signal is nonnegative under
nonnegative tables and strength. -/
lemma signal_weight_nonneg (config : ScoringConfig) (now : ℚ) (s : SignalEvent)
    (h1 : ∀ p ∈ config.signal_weights, 0 ≤ p.2)
    (h2 : ∀ p ∈ config.action_modifiers, 0 ≤ p.2) (hs : 0 ≤ s.strength) :
    0 ≤ IntentScorer.signal_weight config now s := by
  unfold IntentScorer.signal_weight
  apply mul_nonneg _ (calculate_decay_pos config now s.timestamp).le
  exact_mod_cast signal_weight_q_nonneg config s h1 h2 hs

/-- Total weighted mass is nonnegative under the same hypotheses. -/
lemma total_raw_weight_nonneg (config : ScoringConfig) (now : ℚ)
    (signals : List SignalEvent)
    (h1 : ∀ p ∈ config.signal_weights, 0 ≤ p.2)
    (h2 : ∀ p ∈ config.action_modifiers, 0 ≤ p.2)
    (hs : ∀ s ∈ signals, 0 ≤ s.strength) :
    0 ≤ IntentScorer.total_raw_weight config now signals := by
  unfold IntentScorer.total_raw_weight
  apply List.sum_nonneg
  intro x hx
  obtain ⟨s, hsmem, rfl⟩ := List.mem_map.mp hx
  exact signal_weight_nonneg config now s h1 h2 (hs s hsmem)

lemma round1r_zero : round1r 0 = 0 := by
  unfold round1r
  norm_num

/-- The sigmoid of the cold-start bias is below the LOW/MEDIUM border. -/
lemma sigmoid_neg3_lt : IntentScorer.sigmoid (-3.0) < 0.3 := by
  have hmin : min (50 : ℝ) (-3.0) = -3.0 := min_eq_right (by norm_num)
  have hmax : max (-50 : ℝ) (-3.0) = -3.0 := max_eq_right (by norm_num)
  show (1.0 : ℝ) / (1.0 + Real.exp (-(max (-50) (min 50 (-3.0))))) < 0.3
  rw [hmin, hmax]
  have he1 : (2.7182818283 : ℝ) < Real.exp 1 := Real.exp_one_gt_d9
  have he3 : Real.exp 1 ≤ Real.exp (-(-3.0 : ℝ)) := Real.exp_le_exp.mpr (by norm_num)
  have hpos : (0 : ℝ) < 1.0 + Real.exp (-(-3.0 : ℝ)) := by positivity
  rw [div_lt_iff hpos]
  nlinarith

/-- C6 (confirmed).  Under the default config, scoring an empty signal list
(with the optional committee arguments at their defaults) returns exactly
the sigmoid-of-bias score round(100 * sigmoid(-3), 1), label LOW,
recency_factor 0.0, raw signal mass 0.0 and committee factor 1.0; the
empty-list score is minimal: no valid signal list scores below it. -/
theorem C6_empty_signals (now : ℚ) :
    (IntentScorer.calculate_intent_score defaultScoringConfig now [] none none).score =
      round1r (IntentScorer.sigmoid (-3.0) * 100.0) ∧
    (IntentScorer.calculate_intent_score defaultScoringConfig now [] none none).label =
      IntentLabel.LOW ∧
    (IntentScorer.calculate_intent_score defaultScoringConfig now [] none
      none).recency_factor = 0 ∧
    (IntentScorer.calculate_intent_score defaultScoringConfig now [] none
      none).signals_score = 0 ∧
    (IntentScorer.calculate_intent_score defaultScoringConfig now [] none
      none).committee_factor = 1 ∧
    (∀ signals : List SignalEvent, (∀ s ∈ signals, 0 ≤ s.strength) →
      (IntentScorer.calculate_intent_score defaultScoringConfig now [] none none).score ≤
        (IntentScorer.calculate_intent_score defaultScoringConfig now signals none
          none).score) := by
  have hb : IntentScorer.committee_boost now (none : Option EnrichedLead)
      (none : Option (List SignalEvent)) = 0.0 := by
    rw [committee_boost_eq]
    norm_num [IntentScorer.effective_committee_factor]
  have hlog : (-3.0 : ℝ) +
      (([] : List SignalEvent).map
        (fun s => IntentScorer.signal_weight defaultScoringConfig now s * 0.1)).sum +
      ((IntentScorer.committee_boost now (none : Option EnrichedLead)
        (none : Option (List SignalEvent)) : ℚ) : ℝ) = -3.0 := by
    rw [hb]
    norm_num
  refine ⟨?_, ?_, ?_, ?_, ?_, ?_⟩
  · rw [score_def, hlog]
  · rw [label_def, hlog]
    unfold IntentScorer.determine_label
    have hσ := sigmoid_neg3_lt
    rw [if_neg, if_neg]
    · show ¬ ((defaultScoringConfig.medium_threshold : ℚ) : ℝ) ≤
        IntentScorer.sigmoid (-3.0) * 100.0
      have : ((defaultScoringConfig.medium_threshold : ℚ) : ℝ) = 30 := by
        norm_num [defaultScoringConfig]
      rw [this]
      nlinarith
    · show ¬ ((defaultScoringConfig.high_threshold : ℚ) : ℝ) ≤
        IntentScorer.sigmoid (-3.0) * 100.0
      have : ((defaultScoringConfig.high_threshold : ℚ) : ℝ) = 70 := by
        norm_num [defaultScoringConfig]
      rw [this]
      nlinarith
  · rw [show (IntentScorer.calculate_intent_score defaultScoringConfig now [] none
        none).recency_factor = 0.0 from rfl]
    norm_num
  · rw [show (IntentScorer.calculate_intent_score defaultScoringConfig now [] none
        none).signals_score = round1r (IntentScorer.total_raw_weight
          defaultScoringConfig now []) from rfl]
    rw [show IntentScorer.total_raw_weight defaultScoringConfig now [] = 0 from rfl]
    exact round1r_zero
  · rw [show (IntentScorer.calculate_intent_score defaultScoringConfig now [] none
        none).committee_factor = 1.0 from rfl]
    norm_num
  · intro signals hs
    apply score_mono_in_mass
    rw [show IntentScorer.total_raw_weight defaultScoringConfig now [] = 0 from rfl]
    exact total_raw_weight_nonneg defaultScoringConfig now signals
      default_signal_weights_nonneg default_action_modifiers_nonneg hs

/-- Witness for C6: the empty-call record at time 0 and minimality against a
concrete demo-request signal. -/
theorem C6_empty_signals_witness :
    (IntentScorer.calculate_intent_score defaultScoringConfig 0 [] none none).label =
      IntentLabel.LOW ∧
    (IntentScorer.calculate_intent_score defaultScoringConfig 0 [] none none).score ≤
      (IntentScorer.calculate_intent_score defaultScoringConfig 0
        [⟨.DEMO_REQUEST, "u1", 0, .COMPANY_WEBSITE, [], none, 1⟩] none none).score :=
  ⟨(C6_empty_signals 0).2.1,
   (C6_empty_signals 0).2.2.2.2.2 [⟨.DEMO_REQUEST, "u1", 0, .COMPANY_WEBSITE, [], none, 1⟩]
     (by intro s hs; fin_cases hs <;> norm_num)⟩

/-! ## C3: pipeline behavior on neural classifier failure -/

/-- C3 (amended).  When the neural classifier raises, process_lead produces
exactly the record it would produce with no model loaded: neural_prob stays
at its initial 0.0, the rule-based intent score is untouched, and the
complete record is returned — whose decision component carries exactly the
keys should_engage and reason (the pipeline decision record has no priority
key; priority exists only in the HighIntentFilter decision, which
process_lead does not consult). -/
theorem C3_neural_failure (config : SystemConfig) (icp_config : ICPConfig)
    (scoring_config : ScoringConfig) (now : ℚ) (lead : EnrichedLead)
    (semantic_fit01 : ℝ) (attention_weights : List ℝ)
    (draft_gen : EnrichedLead → List SignalEvent → String)
    (signals : List SignalEvent) (m : NeuralModel) (e : String)
    (hm : m.predict signals = .error e) :
    process_lead config icp_config scoring_config (some m) now lead semantic_fit01
        attention_weights draft_gen signals =
      process_lead config icp_config scoring_config none now lead semantic_fit01
        attention_weights draft_gen signals ∧
    (process_lead config icp_config scoring_config none now lead semantic_fit01
      attention_weights draft_gen signals).neural_prob = 0 ∧
    (process_lead config icp_config scoring_config none now lead semantic_fit01
      attention_weights draft_gen signals).intent_score =
      (IntentScorer.calculate_intent_score scoring_config now signals (some lead)
        none).score ∧
    (process_lead config icp_config scoring_config none now lead semantic_fit01
      attention_weights draft_gen signals).decision.map Prod.fst =
      ["should_engage", "reason"] := by
  refine ⟨?_, ?_, rfl, rfl⟩
  · simp only [process_lead, hm]
  · rw [show (process_lead config icp_config scoring_config none now lead semantic_fit01
      attention_weights draft_gen signals).neural_prob = 0.0 from rfl]
    norm_num

/-- Witness for C3: a concrete model whose inference always raises yields the
same record as no model at all on a concrete lead. -/
theorem C3_neural_failure_witness :
    process_lead defaultSystemConfig defaultICPConfig defaultScoringConfig
        (some ⟨fun _ => .error "inference failed"⟩) 0
        ⟨"u1", none, none, none, none, []⟩ 0 [] (fun _ _ => "draft") [] =
      process_lead defaultSystemConfig defaultICPConfig defaultScoringConfig none 0
        ⟨"u1", none, none, none, none, []⟩ 0 [] (fun _ _ => "draft") [] ∧
    (process_lead defaultSystemConfig defaultICPConfig defaultScoringConfig none 0
      ⟨"u1", none, none, none, none, []⟩ 0 [] (fun _ _ => "draft") []).neural_prob = 0 :=
  ⟨(C3_neural_failure defaultSystemConfig defaultICPConfig defaultScoringConfig 0
      ⟨"u1", none, none, none, none, []⟩ 0 [] (fun _ _ => "draft") []
      ⟨fun _ => .error "inference failed"⟩ "inference failed" rfl).1,
   (C3_neural_failure defaultSystemConfig defaultICPConfig defaultScoringConfig 0
      ⟨"u1", none, none, none, none, []⟩ 0 [] (fun _ _ => "draft") []
      ⟨fun _ => .error "inference failed"⟩ "inference failed" rfl).2.1⟩

/-- Counterexample for C3 as stated: the per-lead decision record assembled
by process_lead contains only the keys should_engage and reason; it has no
priority key, contradicting the claimed {should_engage, reason, priority}
shape. -/
theorem C3_counterexample :
    (process_lead defaultSystemConfig defaultICPConfig defaultScoringConfig none 0
      ⟨"u1", none, none, none, none, []⟩ 0 [] (fun _ _ => "draft") []).decision.map
        Prod.fst = ["should_engage", "reason"] ∧
    ¬ ("priority" ∈ (process_lead defaultSystemConfig defaultICPConfig
      defaultScoringConfig none 0 ⟨"u1", none, none, none, none, []⟩ 0 []
      (fun _ _ => "draft") []).decision.map Prod.fst) := by
  have hk : (process_lead defaultSystemConfig defaultICPConfig defaultScoringConfig none 0
      ⟨"u1", none, none, none, none, []⟩ 0 [] (fun _ _ => "draft") []).decision.map
        Prod.fst = ["should_engage", "reason"] := rfl
  refine ⟨hk, ?_⟩
  rw [hk]
  decide

end LeadScout
